import Mathlib

/-!
Shallow embedding of the core of `tiedit` (src/tiedit.c): the terminfo
binary-format loader (`LoadTerminfo` / `ReadBytes`), the capability name
catalog (`GetStrtableEntry`, `GetBooleanName`, `GetNumberName`,
`GetStringName` over the packed tables `c_BooleanNames`, `c_NumberNames`,
`c_StringNames`), the string-capability resolution performed by `DrawLine`,
and the viewport/key handler `OnKey`.

Bytes are modelled as natural numbers; a byte source is a `List Nat`.
Multi-byte integers are decoded little-endian, the native order of the
original program's primary targets (`__i386__` / `__x86_64__`).
Unsigned 32-bit C arithmetic is modelled explicitly modulo 2^32.
-/

set_option maxRecDepth 10000

namespace Tiedit

/-! ## Definitions: the embedded program -/

def NBooleans : Nat := 44

def NNumbers : Nat := 39

def NStrings : Nat := 414

def FirstBoolean : Nat := 0

def FirstNumber : Nat := FirstBoolean + NBooleans

def FirstString : Nat := FirstNumber + NNumbers

def NValues : Nat := FirstString + NStrings

/-- The magic sentinel `TERMINFO_MAGIC = 0432` (octal), decimal 282. -/
def TERMINFO_MAGIC : Nat := 0o432

/-- Failure modes of a load: `ioError` models `ReadBytes`' fatal exit on a
short read (and a failed open), `formatError` the "not a terminfo file"
rejection in `LoadTerminfo`. -/
inductive TiError where
  | ioError : TiError
  | formatError : TiError
deriving DecidableEq

/-- The header `struct STerminfoHeader`: six 16-bit fields, 12 bytes on the wire. -/
structure STerminfoHeader where
  magic : Nat
  nameSize : Nat
  nBooleans : Nat
  nNumbers : Nat
  nStrings : Nat
  strtableSize : Nat
deriving DecidableEq

/-- Decode an unsigned 16-bit little-endian integer from two bytes. -/
def readU16 (b0 b1 : Nat) : Nat := b0 % 256 + 256 * (b1 % 256)

/-- Decode a list of bytes as consecutive unsigned 16-bit integers
(dropping a trailing odd byte, which never occurs in a full section). -/
def decodeU16 : List Nat → List Nat
  | b0 :: b1 :: rest => readU16 b0 b1 :: decodeU16 rest
  | _ => []

/-- Reinterpret an unsigned 16-bit value as signed (two's complement),
as the `int16_t` numbers section is. -/
def toI16 (v : Nat) : Int :=
  if v % 65536 < 32768 then (v % 65536 : Int) else (v % 65536 : Int) - 65536

/-- Decode a list of bytes as consecutive signed 16-bit integers. -/
def decodeI16 (l : List Nat) : List Int := (decodeU16 l).map toI16

/-- Parse the 12 header bytes into `STerminfoHeader` (fields in wire order:
`magic`, `nameSize`, `nBooleans`, `nNumbers`, `nStrings`, `strtableSize`). -/
def parseHeader (b : List Nat) : STerminfoHeader :=
  { magic := readU16 (b.getD 0 0) (b.getD 1 0)
    nameSize := readU16 (b.getD 2 0) (b.getD 3 0)
    nBooleans := readU16 (b.getD 4 0) (b.getD 5 0)
    nNumbers := readU16 (b.getD 6 0) (b.getD 7 0)
    nStrings := readU16 (b.getD 8 0) (b.getD 9 0)
    strtableSize := readU16 (b.getD 10 0) (b.getD 11 0) }

/-- The record `struct STerminfo`: the in-memory record. `abool` keeps the raw section
bytes (the program tests them for truth: nonzero means `true`); `anum` and
`astro` hold the decoded 16-bit values. -/
structure STerminfo where
  h : STerminfoHeader
  name : List Nat
  abool : List Nat
  anum : List Int
  astro : List Nat
  strings : List Nat
deriving DecidableEq

/-- Model of `ReadBytes`: consume exactly `bufsz` bytes from the source or fail
fatally (`exit` after `perror` in the original) with an `ioError`.
Returns the bytes read and the remaining source. -/
def readBytes (s : List Nat) (bufsz : Nat) : Except TiError (List Nat × List Nat) :=
  if bufsz ≤ s.length then Except.ok (s.take bufsz, s.drop bufsz)
  else Except.error TiError.ioError

/-- The header validation of `LoadTerminfo`: `magic` must equal
`TERMINFO_MAGIC` and no count may exceed its table maximum. -/
def badHeader (h : STerminfoHeader) : Prop :=
  h.magic ≠ TERMINFO_MAGIC ∨ NBooleans < h.nBooleans ∨
    NNumbers < h.nNumbers ∨ NStrings < h.nStrings

instance (h : STerminfoHeader) : Decidable (badHeader h) := by
  unfold badHeader; infer_instance

/-- Model of `LoadTerminfo` on an already-opened byte source: read the 12-byte
header, validate it, then read the five sections in fixed order, each for
exactly its declared byte count. -/
def loadTerminfo (input : List Nat) : Except TiError STerminfo :=
  match readBytes input 12 with
  | Except.error e => Except.error e
  | Except.ok (hdrBytes, s1) =>
    let h := parseHeader hdrBytes
    if badHeader h then Except.error TiError.formatError
    else match readBytes s1 h.nameSize with
    | Except.error e => Except.error e
    | Except.ok (name, s2) =>
      match readBytes s2 h.nBooleans with
      | Except.error e => Except.error e
      | Except.ok (abool, s3) =>
        match readBytes s3 (2 * h.nNumbers) with
        | Except.error e => Except.error e
        | Except.ok (anum, s4) =>
          match readBytes s4 (2 * h.nStrings) with
          | Except.error e => Except.error e
          | Except.ok (astro, s5) =>
            match readBytes s5 h.strtableSize with
            | Except.error e => Except.error e
            | Except.ok (strings, _) =>
              Except.ok { h := h, name := name, abool := abool,
                          anum := decodeI16 anum, astro := decodeU16 astro,
                          strings := strings }

/-- Total number of bytes the five sections require after the header. -/
def sectionsLen (h : STerminfoHeader) : Nat :=
  h.nameSize + h.nBooleans + 2 * h.nNumbers + 2 * h.nStrings + h.strtableSize

/-- The record `loadTerminfo` produces on a successful load: the header is
parsed from the first 12 bytes and the five sections are cut from the rest
in order. -/
def mkRecord (input : List Nat) : STerminfo :=
  let h := parseHeader (input.take 12)
  let s1 := input.drop 12
  let s2 := s1.drop h.nameSize
  let s3 := s2.drop h.nBooleans
  let s4 := s3.drop (2 * h.nNumbers)
  let s5 := s4.drop (2 * h.nStrings)
  { h := h
    name := s1.take h.nameSize
    abool := s2.take h.nBooleans
    anum := decodeI16 (s3.take (2 * h.nNumbers))
    astro := decodeU16 (s4.take (2 * h.nStrings))
    strings := s5.take h.strtableSize }

/-- A concrete valid 21-byte terminfo image: magic 282, one two-byte name
section, one boolean, one number, one string offset, a two-byte string
table. -/
def sampleInput : List Nat :=
  [26, 1, 2, 0, 1, 0, 1, 0, 1, 0, 2, 0,
   120, 0,
   1,
   5, 0,
   0, 0,
   97, 0]

/-- A 21-byte image identical to `sampleInput` except for a wrong magic. -/
def badMagicInput : List Nat :=
  [27, 1, 2, 0, 1, 0, 1, 0, 1, 0, 2, 0,
   120, 0, 1, 5, 0, 0, 0, 97, 0]

/-- The 44 boolean capability names of `c_BooleanNames`, in ordinal order. -/
def booleanNames : List String :=
  [
   "auto_left_margin", "auto_right_margin", "no_esc_ctlc", "ceol_standout_glitch",
   "eat_newline_glitch", "erase_overstrike", "generic_type", "hard_copy",
   "has_meta_key", "has_status_line", "insert_null_glitch", "memory_above",
   "memory_below", "move_insert_mode", "move_standout_mode", "over_strike",
   "status_line_esc_ok", "dest_tabs_magic_smso", "tilde_glitch", "transparent_underline",
   "xon_xoff", "needs_xon_xoff", "prtr_silent", "hard_cursor",
   "non_rev_rmcup", "no_pad_char", "non_dest_scroll_region", "can_change",
   "back_color_erase", "hue_lightness_saturation", "col_addr_glitch", "cr_cancels_micro_mode",
   "has_print_wheel", "row_addr_glitch", "semi_auto_right_margin", "cpi_changes_res",
   "lpi_changes_res", "backspaces_with_bs", "crt_no_scrolling", "no_correctly_working_cr",
   "gnu_has_meta_key", "linefeed_is_newline", "has_hardware_tabs", "return_does_clr_eol"]

/-- The 39 numeric capability names of `c_NumberNames`, in ordinal order. -/
def numberNames : List String :=
  [
   "columns", "init_tabs", "lines", "lines_of_memory",
   "magic_cookie_glitch", "padding_baud_rate", "virtual_terminal", "width_status_line",
   "num_labels", "label_height", "label_width", "max_attributes",
   "maximum_windows", "max_colors", "max_pairs", "no_color_video",
   "buffer_capacity", "dot_vert_spacing", "dot_horz_spacing", "max_micro_address",
   "max_micro_jump", "micro_col_size", "micro_line_size", "number_of_pins",
   "output_res_char", "output_res_line", "output_res_horz_inch", "output_res_vert_inch",
   "print_rate", "wide_char_size", "buttons", "bit_image_entwining",
   "bit_image_type", "magic_cookie_glitch_ul", "carriage_return_delay", "new_line_delay",
   "backspace_delay", "horizontal_tab_delay", "number_of_function_keys"]

/-- The 414 string capability names of `c_StringNames`, in ordinal order. -/
def stringNames : List String :=
  [
   "back_tab", "bell", "carriage_return", "change_scroll_region",
   "clear_all_tabs", "clear_screen", "clr_eol", "clr_eos",
   "column_address", "command_character", "cursor_address", "cursor_down",
   "cursor_home", "cursor_invisible", "cursor_left", "cursor_mem_address",
   "cursor_normal", "cursor_right", "cursor_to_ll", "cursor_up",
   "cursor_visible", "delete_character", "delete_line", "dis_status_line",
   "down_half_line", "enter_alt_charset_mode", "enter_blink_mode", "enter_bold_mode",
   "enter_ca_mode", "enter_delete_mode", "enter_dim_mode", "enter_insert_mode",
   "enter_secure_mode", "enter_protected_mode", "enter_reverse_mode", "enter_standout_mode",
   "enter_underline_mode", "erase_chars", "exit_alt_charset_mode", "exit_attribute_mode",
   "exit_ca_mode", "exit_delete_mode", "exit_insert_mode", "exit_standout_mode",
   "exit_underline_mode", "flash_screen", "form_feed", "from_status_line",
   "init_1string", "init_2string", "init_3string", "init_file",
   "insert_character", "insert_line", "insert_padding", "key_backspace",
   "key_catab", "key_clear", "key_ctab", "key_dc",
   "key_dl", "key_down", "key_eic", "key_eol",
   "key_eos", "key_f0", "key_f1", "key_f10",
   "key_f2", "key_f3", "key_f4", "key_f5",
   "key_f6", "key_f7", "key_f8", "key_f9",
   "key_home", "key_ic", "key_il", "key_left",
   "key_ll", "key_npage", "key_ppage", "key_right",
   "key_sf", "key_sr", "key_stab", "key_up",
   "keypad_local", "keypad_xmit", "lab_f0", "lab_f1",
   "lab_f10", "lab_f2", "lab_f3", "lab_f4",
   "lab_f5", "lab_f6", "lab_f7", "lab_f8",
   "lab_f9", "meta_off", "meta_on", "newline",
   "pad_char", "parm_dch", "parm_delete_line", "parm_down_cursor",
   "parm_ich", "parm_index", "parm_insert_line", "parm_left_cursor",
   "parm_right_cursor", "parm_rindex", "parm_up_cursor", "pkey_key",
   "pkey_local", "pkey_xmit", "print_screen", "prtr_off",
   "prtr_on", "repeat_char", "reset_1string", "reset_2string",
   "reset_3string", "reset_file", "restore_cursor", "row_address",
   "save_cursor", "scroll_forward", "scroll_reverse", "set_attributes",
   "set_tab", "set_window", "tab", "to_status_line",
   "underline_char", "up_half_line", "init_prog", "key_a1",
   "key_a3", "key_b2", "key_c1", "key_c3",
   "prtr_non", "char_padding", "acs_chars", "plab_norm",
   "key_btab", "enter_xon_mode", "exit_xon_mode", "enter_am_mode",
   "exit_am_mode", "xon_character", "xoff_character", "ena_acs",
   "label_on", "label_off", "key_beg", "key_cancel",
   "key_close", "key_command", "key_copy", "key_create",
   "key_end", "key_enter", "key_exit", "key_find",
   "key_help", "key_mark", "key_message", "key_move",
   "key_next", "key_open", "key_options", "key_previous",
   "key_print", "key_redo", "key_reference", "key_refresh",
   "key_replace", "key_restart", "key_resume", "key_save",
   "key_suspend", "key_undo", "key_sbeg", "key_scancel",
   "key_scommand", "key_scopy", "key_screate", "key_sdc",
   "key_sdl", "key_select", "key_send", "key_seol",
   "key_sexit", "key_sfind", "key_shelp", "key_shome",
   "key_sic", "key_sleft", "key_smessage", "key_smove",
   "key_snext", "key_soptions", "key_sprevious", "key_sprint",
   "key_sredo", "key_sreplace", "key_sright", "key_srsume",
   "key_ssave", "key_ssuspend", "key_sundo", "req_for_input",
   "key_f11", "key_f12", "key_f13", "key_f14",
   "key_f15", "key_f16", "key_f17", "key_f18",
   "key_f19", "key_f20", "key_f21", "key_f22",
   "key_f23", "key_f24", "key_f25", "key_f26",
   "key_f27", "key_f28", "key_f29", "key_f30",
   "key_f31", "key_f32", "key_f33", "key_f34",
   "key_f35", "key_f36", "key_f37", "key_f38",
   "key_f39", "key_f40", "key_f41", "key_f42",
   "key_f43", "key_f44", "key_f45", "key_f46",
   "key_f47", "key_f48", "key_f49", "key_f50",
   "key_f51", "key_f52", "key_f53", "key_f54",
   "key_f55", "key_f56", "key_f57", "key_f58",
   "key_f59", "key_f60", "key_f61", "key_f62",
   "key_f63", "clr_bol", "clear_margins", "set_left_margin",
   "set_right_margin", "label_format", "set_clock", "display_clock",
   "remove_clock", "create_window", "goto_window", "hangup",
   "dial_phone", "quick_dial", "tone", "pulse",
   "flash_hook", "fixed_pause", "wait_tone", "user0",
   "user1", "user2", "user3", "user4",
   "user5", "user6", "user7", "user8",
   "user9", "orig_pair", "orig_colors", "initialize_color",
   "initialize_pair", "set_color_pair", "set_foreground", "set_background",
   "change_char_pitch", "change_line_pitch", "change_res_horz", "change_res_vert",
   "define_char", "enter_doublewide_mode", "enter_draft_quality", "enter_italics_mode",
   "enter_leftward_mode", "enter_micro_mode", "enter_near_letter_quality", "enter_normal_quality",
   "enter_shadow_mode", "enter_subscript_mode", "enter_superscript_mode", "enter_upward_mode",
   "exit_doublewide_mode", "exit_italics_mode", "exit_leftward_mode", "exit_micro_mode",
   "exit_shadow_mode", "exit_subscript_mode", "exit_superscript_mode", "exit_upward_mode",
   "micro_column_address", "micro_down", "micro_left", "micro_right",
   "micro_row_address", "micro_up", "order_of_pins", "parm_down_micro",
   "parm_left_micro", "parm_right_micro", "parm_up_micro", "select_char_set",
   "set_bottom_margin", "set_bottom_margin_parm", "set_left_margin_parm", "set_right_margin_parm",
   "set_top_margin", "set_top_margin_parm", "start_bit_image", "start_char_set_def",
   "stop_bit_image", "stop_char_set_def", "subscript_characters", "superscript_characters",
   "these_cause_cr", "zero_motion", "char_set_names", "key_mouse",
   "mouse_info", "req_mouse_pos", "get_mouse", "set_a_foreground",
   "set_a_background", "pkey_plab", "device_type", "code_set_init",
   "set0_des_seq", "set1_des_seq", "set2_des_seq", "set3_des_seq",
   "set_lr_margin", "set_tb_margin", "bit_image_repeat", "bit_image_newline",
   "bit_image_carriage_return", "color_names", "define_bit_image_region", "end_bit_image_region",
   "set_color_band", "set_page_length", "display_pc_char", "enter_pc_charset_mode",
   "exit_pc_charset_mode", "enter_scancode_mode", "exit_scancode_mode", "pc_term_options",
   "scancode_escape", "alt_scancode_esc", "enter_horizontal_hl_mode", "enter_left_hl_mode",
   "enter_low_hl_mode", "enter_right_hl_mode", "enter_top_hl_mode", "enter_vertical_hl_mode",
   "set_a_attributes", "set_pglen_inch", "termcap_init2", "termcap_reset",
   "linefeed_if_not_lf", "backspace_if_not_bs", "other_non_function_keys", "arrow_key_map",
   "acs_ulcorner", "acs_llcorner", "acs_urcorner", "acs_lrcorner",
   "acs_ltee", "acs_rtee", "acs_btee", "acs_ttee",
   "acs_hline", "acs_vline", "acs_plus", "memory_lock",
   "memory_unlock", "box_chars_1"]

/-- The bytes (character codes) of a name string. -/
def strBytes (s : String) : List Nat := s.toList.map Char.toNat

/-- A packed table as the C initializer `_("s1") _("s2") ...` lays it out,
with `#define _(s) "\0" s`: a NUL before each name and the string
literal's implicit final NUL. -/
def packTable (names : List String) : List Nat :=
  (names.map (fun s => 0 :: strBytes s)).join ++ [0]

/-- The table `c_BooleanNames` as laid out in memory. -/
def c_BooleanNames : List Nat := packTable booleanNames

/-- The table `c_NumberNames` as laid out in memory. -/
def c_NumberNames : List Nat := packTable numberNames

/-- The table `c_StringNames` as laid out in memory. -/
def c_StringNames : List Nat := packTable stringNames

/-- Model of `strlen`: the number of bytes before the first NUL. -/
def strlenList (l : List Nat) : Nat := (l.takeWhile (fun b => b != 0)).length

/-- The walk of `GetStrtableEntry`'s portable `#else` branch: repeat up to
`n` times, while the cursor is strictly before the end of the buffer,
advance by `strlen + 1` (the loop `for (unsigned i = min(idx,maxstr)+1;
--i && strs < strsend;) strs += strlen(strs)+1;` runs its body
`min(idx,maxstr)` times). The cursor is modelled as the suffix of the
buffer it points to; `[]` is the end. -/
def skipEntriesC : Nat → List Nat → List Nat
  | 0, strs => strs
  | n + 1, strs =>
    if strs.isEmpty then strs
    else skipEntriesC n (strs.drop (strlenList strs + 1))

/-- One `repnz scasb` of the `__i386__ || __x86_64__` branch: scan forward
past the next NUL; `ecx` holds the remaining byte count, so the scan also
stops (without finding a NUL) at the end of the remaining window. -/
def scasbSkip (strs : List Nat) : List Nat :=
  match strs.dropWhile (fun b => b != 0) with
  | [] => []
  | _ :: rest => rest

/-- The walk of the x86 branch of `GetStrtableEntry`: `n` executions of
`repnz scasb`. -/
def skipEntriesAsm : Nat → List Nat → List Nat
  | 0, strs => strs
  | n + 1, strs => skipEntriesAsm n (scasbSkip strs)

/-- The function `GetStrtableEntry` as compiled for the program's primary targets
(`__i386__ || __x86_64__`): `repnz scasb` executed `min(idx,maxstr)+1`
times over the table. The returned pointer is modelled as the suffix of
the table it points to; `[]` is the one-past-the-end position. -/
def GetStrtableEntry (idx maxstr : Nat) (strs : List Nat) : List Nat :=
  skipEntriesAsm (min idx maxstr + 1) strs

/-- The portable `#else` branch of `GetStrtableEntry`: only
`min(idx,maxstr)` entries are skipped (one fewer NUL than the x86
branch crosses), bounded by `strsend`. -/
def GetStrtableEntryPortable (idx maxstr : Nat) (strs : List Nat) : List Nat :=
  skipEntriesC (min idx maxstr) strs

/-- The NUL-terminated string a returned pointer points at. -/
def entryName (suffix : List Nat) : List Nat := suffix.takeWhile (fun b => b != 0)

/-- Model of `GetBooleanName` (x86 branch of the walk). -/
def GetBooleanName (i : Nat) : List Nat :=
  entryName (GetStrtableEntry i NBooleans c_BooleanNames)

/-- Model of `GetNumberName` (x86 branch of the walk). -/
def GetNumberName (i : Nat) : List Nat :=
  entryName (GetStrtableEntry i NNumbers c_NumberNames)

/-- Model of `GetStringName` (x86 branch of the walk). -/
def GetStringName (i : Nat) : List Nat :=
  entryName (GetStrtableEntry i NStrings c_StringNames)

/-- The three capability classes. -/
inductive CapClass where
  | boolean : CapClass
  | number : CapClass
  | string : CapClass

/-- Ordinal count per class (the table maxima 44 / 39 / 414). -/
def countFor : CapClass → Nat
  | CapClass.boolean => NBooleans
  | CapClass.number => NNumbers
  | CapClass.string => NStrings

/-- The name list per class, in ordinal order. -/
def namesFor : CapClass → List String
  | CapClass.boolean => booleanNames
  | CapClass.number => numberNames
  | CapClass.string => stringNames

/-- The packed static table per class. -/
def tableFor : CapClass → List Nat
  | CapClass.boolean => c_BooleanNames
  | CapClass.number => c_NumberNames
  | CapClass.string => c_StringNames

/-- The catalog lookup `nameOf(class, ordinal)`:
`GetBooleanName` / `GetNumberName` / `GetStringName`. -/
def nameOf : CapClass → Nat → List Nat
  | CapClass.boolean, i => GetBooleanName i
  | CapClass.number, i => GetNumberName i
  | CapClass.string, i => GetStringName i

/-- The packed name buffer as the spec describes it: the class's names
concatenated in ordinal order, each NUL-terminated. -/
def packedNames (names : List String) : List Nat :=
  (names.map (fun s => strBytes s ++ [0])).join

/-- NUL-freeness of every name in a class list. -/
def namesNulFree (names : List String) : Prop :=
  ∀ s ∈ names, ∀ b ∈ strBytes s, b ≠ 0

/-- Fold a byte list into a single natural number (base 1114112, the
number of Unicode scalar values, so the digits are the bytes). -/
def keyFold (bs : List Nat) : Nat := bs.foldl (fun a b => a * 1114112 + b) 1

/-- The key of a name string; factors through `strBytes`. -/
def strKey (s : String) : Nat := keyFold (strBytes s)

/-- A binary search tree from keys to values. -/
inductive KeyTree where
  | leaf : KeyTree
  | node : KeyTree → Nat → Nat → KeyTree → KeyTree

/-- Search `KeyTree` for a key; 0 when absent. -/
def KeyTree.find : KeyTree → Nat → Nat
  | KeyTree.leaf, _ => 0
  | KeyTree.node l k v r, x =>
    if x < k then KeyTree.find l x else if k < x then KeyTree.find r x else v

/-- Balanced search tree mapping `strKey` of each boolean name to its ordinal (a distinctness certificate). -/
def booleanTree : KeyTree :=
  (KeyTree.node (KeyTree.node (KeyTree.node (KeyTree.node (KeyTree.node (KeyTree.node KeyTree.leaf 2373982925326432975587160879638451428783001305190 20 KeyTree.leaf) 2644844885235405062848403699751220780262973727187140729 7 KeyTree.leaf) 2946640201789300624781335465415354215898853022343551906152549 27 (KeyTree.node (KeyTree.node KeyTree.leaf 3282901940387813083805301645412463113731175756720899147757101449330 23 KeyTree.leaf) 3282919618695155542908806295723842955563524966868576915271048757347 2 KeyTree.leaf)) 3282919618695155542908829732291650488719091037885724536481550237810 25 (KeyTree.node (KeyTree.node (KeyTree.node KeyTree.leaf 3282922565092054098599758171411060509101531968930055452199912931429 15 KeyTree.leaf) 3282925511459862097462889059029558687581409902046952376012716769396 22 KeyTree.leaf) 3657517164025615934285672312413652479887719538305645478782365197214416997 6 (KeyTree.node (KeyTree.node KeyTree.leaf 3657520446609347213069078375561748345065723816234408455764644487937458297 8 KeyTree.leaf) 3657536859598716606276207186786971785021172730214831524554227732087963749 11 KeyTree.leaf))) 3657536859598716606276207186786971785021172730216372219214663985542398071 12 (KeyTree.node (KeyTree.node (KeyTree.node (KeyTree.node KeyTree.leaf 3657559837779119570917965045808488542629134868639143798281468044138184808 18 KeyTree.leaf) 4074909362933127703568903327643406037720659298476524869590485622029661367500912 24 KeyTree.leaf) 4539905420119580951971315073265523529240431635479749979621209321403659315681065042022 21 (KeyTree.node (KeyTree.node KeyTree.leaf 5057913173431547975806528498550689924691416676472379044776008589165513818008640200698429544 30 KeyTree.leaf) 5057913173435622471907863885785928075463197367716696560647194060079559641851665648914333811 35 KeyTree.leaf)) 5057935870660624763334338751941330737013184601044531023186296520169542767969292276534149228 32 (KeyTree.node (KeyTree.node (KeyTree.node KeyTree.leaf 5057935870660624763334338751950169877461427626427377682618695750350032677731932976268050533 9 KeyTree.leaf) 5057954028550638221613854652546633159436654739332873624939704420230405361376893381081628787 36 KeyTree.leaf) 5057981265289907598878816063439700027652789389787857320811240917398365126016599343741730920 33 (KeyTree.node KeyTree.leaf 5635071646577872126153613361490538428272017459037778780827643101313262700347519485605589588443246 0 KeyTree.leaf)))) 5635076703950849626511583678976628224643211589253223387561590088329072309638455370128877846462565 28 (KeyTree.node (KeyTree.node (KeyTree.node (KeyTree.node (KeyTree.node KeyTree.leaf 5635081761491787182689736230264020137780459297213724084538442519142883965700239281943477757018215 38 KeyTree.leaf) 5635091876419320533482272941489766875711066877304887784218703579714819680201189006470180438212709 5 KeyTree.leaf) 5635101991328696214284550449404230211879126737893846360057843407143610454050365544368772973133945 40 (KeyTree.node (KeyTree.node KeyTree.leaf 5635132336115835960207345511634313028462018525836160246864468569781325965940519230454714631192677 13 KeyTree.leaf) 6278100942312166270213254489396946769094578801514322893059853444944033364584796652814082481956062822510 1 KeyTree.leaf)) 6278140384278521420026681482595675927314042430990444010249684514678783678090281811810280773068831981683 42 (KeyTree.node (KeyTree.node (KeyTree.node KeyTree.leaf 6994513874482987836674228208862992690253548932467262635241711496478232529223210710982192850571238023727546483 37 KeyTree.leaf) 6994532707146149992008643848085943042876789707393076932541671974289257950020376530411594034435931799391764584 4 KeyTree.leaf) 6994557817436948966698120080157904164002771825175845864091217438026712004493723900040639062315938297928679528 10 (KeyTree.node KeyTree.leaf 6994582927660132988752687535566669245517754329189092633922590876277122192053963729845899508620246484592623717 14 KeyTree.leaf))) 6994620593014629926621495603150030929754306662474835353485229153948258730019522558810391059741519415634493547 16 (KeyTree.node (KeyTree.node (KeyTree.node (KeyTree.node KeyTree.leaf 7792741780764947106492407276930357037856750391578008593001338606001807595139621292664311077415229605974166083600485 41 KeyTree.leaf) 7792783744131878561582786701039292734162596759414059831720941174271730767515005641874888270030528629830834724995180 43 KeyTree.leaf) 8681917002945669720807643479923072872096695783694896938296747752015399597711367718341214069902374478194498329213771382888 3 (KeyTree.node (KeyTree.node KeyTree.leaf 8681924794932108794971683141266606992462460146778568581871236589036385342921654657176153940497817444644377194832354017391 17 KeyTree.leaf) 9672627916087101695793647716123743357025977149207010442123543515356788128376560619180132582784664526626263642833130399427985509 31 KeyTree.leaf)) 9672775495562226600711342001938638827642330748314750091460805359636321734215538864227961792620896562604837569306815231897239653 19 (KeyTree.node (KeyTree.node (KeyTree.node KeyTree.leaf 10776497222274889357968824799536033240533467359020162848411679221027821425293482940896748501214387195222752210427765109976290125873262 26 KeyTree.leaf) 10776545581030486818480976106914539734484316625225828077628849213057493588097469052588876692176750656262072859528682011134573623705710 34 KeyTree.leaf) 12006224873303121402168210569356087204305436413722682058003646495937510393495304765114063554633231049623610859037249578589725530264062591090 39 (KeyTree.node KeyTree.leaf 13376207175872692467951687511026766472168257102264175976625944616867359418512074018138709777454051805421288681143864651387624078263175405356646510 29 KeyTree.leaf)))))

/-- Balanced search tree mapping `strKey` of each string name to its ordinal (a distinctness certificate). -/
def stringTree : KeyTree :=
  (KeyTree.node (KeyTree.node (KeyTree.node (KeyTree.node (KeyTree.node (KeyTree.node (KeyTree.node (KeyTree.node (KeyTree.node KeyTree.leaf 1383030545171152994 134 KeyTree.leaf) 1540826034788598167634028 1 (KeyTree.node KeyTree.leaf 1540850926759101055500389 282 KeyTree.leaf)) 1716674344959685790844808527973 283 (KeyTree.node (KeyTree.node KeyTree.leaf 1716682048409478910512232267824 287 KeyTree.leaf) 1716682048409478910512232267825 288 KeyTree.leaf)) 1716682048409478910512232267826 289 (KeyTree.node (KeyTree.node (KeyTree.node KeyTree.leaf 1716682048409478910512232267827 290 KeyTree.leaf) 1716682048409478910512232267828 291 KeyTree.leaf) 1716682048409478910512232267829 292 (KeyTree.node (KeyTree.node KeyTree.leaf 1716682048409478910512232267830 293 KeyTree.leaf) 1716682048409478910512232267831 294 KeyTree.leaf))) 1716682048409478910512232267832 295 (KeyTree.node (KeyTree.node (KeyTree.node (KeyTree.node KeyTree.leaf 1716682048409478910512232267833 296 KeyTree.leaf) 1912553755766611963791554749441310832 279 (KeyTree.node KeyTree.leaf 1912558905278137122756026500031512625 139 KeyTree.leaf)) 1912558905278137122756026500031512627 140 (KeyTree.node (KeyTree.node KeyTree.leaf 1912558905278137122756026500032626738 141 KeyTree.leaf) 1912558905278137122756026500033740849 142 KeyTree.leaf)) 1912558905278137122756026500033740851 143 (KeyTree.node (KeyTree.node (KeyTree.node KeyTree.leaf 1912558905278137122756026500034855011 59 KeyTree.leaf) 1912558905278137122756026500034855020 60 KeyTree.leaf) 1912558905278137122756026500037083184 65 (KeyTree.node (KeyTree.node KeyTree.leaf 1912558905278137122756026500037083185 66 KeyTree.leaf) 1912558905278137122756026500037083186 68 KeyTree.leaf)))) 1912558905278137122756026500037083187 69 (KeyTree.node (KeyTree.node (KeyTree.node (KeyTree.node (KeyTree.node KeyTree.leaf 1912558905278137122756026500037083188 70 KeyTree.leaf) 1912558905278137122756026500037083189 71 (KeyTree.node KeyTree.leaf 1912558905278137122756026500037083190 72 KeyTree.leaf)) 1912558905278137122756026500037083191 73 (KeyTree.node (KeyTree.node KeyTree.leaf 1912558905278137122756026500037083192 74 KeyTree.leaf) 1912558905278137122756026500037083193 75 KeyTree.leaf)) 1912558905278137122756026500040425571 77 (KeyTree.node (KeyTree.node (KeyTree.node KeyTree.leaf 1912558905278137122756026500040425580 78 KeyTree.leaf) 1912558905278137122756026500043767916 80 KeyTree.leaf) 1912558905278137122756026500051566694 84 (KeyTree.node (KeyTree.node KeyTree.leaf 1912558905278137122756026500051566706 85 KeyTree.leaf) 1912558905278137122756026500053794928 87 KeyTree.leaf))) 1912560621773761789471050535654522928 90 (KeyTree.node (KeyTree.node (KeyTree.node (KeyTree.node KeyTree.leaf 1912560621773761789471050535654522929 91 KeyTree.leaf) 1912560621773761789471050535654522930 93 (KeyTree.node KeyTree.leaf 1912560621773761789471050535654522931 94 KeyTree.leaf)) 1912560621773761789471050535654522932 95 (KeyTree.node (KeyTree.node KeyTree.leaf 1912560621773761789471050535654522933 96 KeyTree.leaf) 1912560621773761789471050535654522934 97 KeyTree.leaf)) 1912560621773761789471050535654522935 98 (KeyTree.node (KeyTree.node (KeyTree.node KeyTree.leaf 1912560621773761789471050535654522936 99 KeyTree.leaf) 1912560621773761789471050535654522937 100 KeyTree.leaf) 2130789528087335957683889365606611051020396 269 (KeyTree.node (KeyTree.node KeyTree.leaf 2130789528087335957683889365610334787666028 6 KeyTree.leaf) 2130789528087335957683889365610334787666035 7 KeyTree.leaf))))) 2130793352841247797604937609334680072683635 155 (KeyTree.node (KeyTree.node (KeyTree.node (KeyTree.node (KeyTree.node (KeyTree.node KeyTree.leaf 2130804827077235906107962196004349897146471 158 KeyTree.leaf) 2130804827077235906107962196008073638248547 62 (KeyTree.node KeyTree.leaf 2130804827077235906107962196008073643819108 164 KeyTree.leaf)) 2130804827077235906107962196008073644933228 63 (KeyTree.node (KeyTree.node KeyTree.leaf 2130804827077235906107962196008073644933235 64 KeyTree.leaf) 2130804827077235906107962196009314821406768 67 KeyTree.leaf)) 2130804827077235906107962196009314821406769 216 (KeyTree.node (KeyTree.node (KeyTree.node KeyTree.leaf 2130804827077235906107962196009314821406770 217 KeyTree.leaf) 2130804827077235906107962196009314821406771 218 KeyTree.leaf) 2130804827077235906107962196009314821406772 219 (KeyTree.node (KeyTree.node KeyTree.leaf 2130804827077235906107962196009314821406773 220 KeyTree.leaf) 2130804827077235906107962196009314821406774 221 KeyTree.leaf))) 2130804827077235906107962196009314821406775 222 (KeyTree.node (KeyTree.node (KeyTree.node (KeyTree.node KeyTree.leaf 2130804827077235906107962196009314821406776 223 KeyTree.leaf) 2130804827077235906107962196009314821406777 224 (KeyTree.node KeyTree.leaf 2130804827077235906107962196009314822520880 225 KeyTree.leaf)) 2130804827077235906107962196009314822520881 226 (KeyTree.node (KeyTree.node KeyTree.leaf 2130804827077235906107962196009314822520882 227 KeyTree.leaf) 2130804827077235906107962196009314822520883 228 KeyTree.leaf)) 2130804827077235906107962196009314822520884 229 (KeyTree.node (KeyTree.node (KeyTree.node KeyTree.leaf 2130804827077235906107962196009314822520885 230 KeyTree.leaf) 2130804827077235906107962196009314822520886 231 KeyTree.leaf) 2130804827077235906107962196009314822520887 232 (KeyTree.node (KeyTree.node KeyTree.leaf 2130804827077235906107962196009314822520888 233 KeyTree.leaf) 2130804827077235906107962196009314822520889 234 KeyTree.leaf)))) 2130804827077235906107962196009314823634992 235 (KeyTree.node (KeyTree.node (KeyTree.node (KeyTree.node (KeyTree.node KeyTree.leaf 2130804827077235906107962196009314823634993 236 KeyTree.leaf) 2130804827077235906107962196009314823634994 237 (KeyTree.node KeyTree.leaf 2130804827077235906107962196009314823634995 238 KeyTree.leaf)) 2130804827077235906107962196009314823634996 239 (KeyTree.node (KeyTree.node KeyTree.leaf 2130804827077235906107962196009314823634997 240 KeyTree.leaf) 2130804827077235906107962196009314823634998 241 KeyTree.leaf)) 2130804827077235906107962196009314823634999 242 (KeyTree.node (KeyTree.node (KeyTree.node KeyTree.leaf 2130804827077235906107962196009314823635000 243 KeyTree.leaf) 2130804827077235906107962196009314823635001 244 KeyTree.leaf) 2130804827077235906107962196009314824749104 245 (KeyTree.node (KeyTree.node KeyTree.leaf 2130804827077235906107962196009314824749105 246 KeyTree.leaf) 2130804827077235906107962196009314824749106 247 KeyTree.leaf))) 2130804827077235906107962196009314824749107 248 (KeyTree.node (KeyTree.node (KeyTree.node (KeyTree.node KeyTree.leaf 2130804827077235906107962196009314824749108 249 KeyTree.leaf) 2130804827077235906107962196009314824749109 250 (KeyTree.node KeyTree.leaf 2130804827077235906107962196009314824749110 251 KeyTree.leaf)) 2130804827077235906107962196009314824749111 252 (KeyTree.node (KeyTree.node KeyTree.leaf 2130804827077235906107962196009314824749112 253 KeyTree.leaf) 2130804827077235906107962196009314824749113 254 KeyTree.leaf)) 2130804827077235906107962196009314825863216 255 (KeyTree.node (KeyTree.node (KeyTree.node KeyTree.leaf 2130804827077235906107962196009314825863217 256 KeyTree.leaf) 2130804827077235906107962196009314825863218 257 KeyTree.leaf) 2130804827077235906107962196009314825863219 258 (KeyTree.node (KeyTree.node KeyTree.leaf 2130804827077235906107962196009314825863220 259 KeyTree.leaf) 2130804827077235906107962196009314825863221 260 KeyTree.leaf)))))) 2130804827077235906107962196009314825863222 261 (KeyTree.node (KeyTree.node (KeyTree.node (KeyTree.node (KeyTree.node (KeyTree.node (KeyTree.node KeyTree.leaf 2130804827077235906107962196009314825863223 262 KeyTree.leaf) 2130804827077235906107962196009314825863224 263 (KeyTree.node KeyTree.leaf 2130804827077235906107962196009314825863225 264 KeyTree.leaf)) 2130804827077235906107962196009314826977328 265 (KeyTree.node (KeyTree.node KeyTree.leaf 2130804827077235906107962196009314826977329 266 KeyTree.leaf) 2130804827077235906107962196009314826977330 267 KeyTree.leaf)) 2130804827077235906107962196009314826977331 268 (KeyTree.node (KeyTree.node (KeyTree.node KeyTree.leaf 2130804827077235906107962196025451070357603 191 KeyTree.leaf) 2130804827077235906107962196025451070357612 192 KeyTree.leaf) 2130804827077235906107962196025451075928163 200 (KeyTree.node (KeyTree.node KeyTree.leaf 2130806739445609294791171054379131849474096 92 KeyTree.leaf) 2130808651827714760942378209794381563494510 102 KeyTree.leaf))) 2130810564202954196833397860360902541181029 103 (KeyTree.node (KeyTree.node (KeyTree.node (KeyTree.node KeyTree.leaf 2130814388975747577986187820218518947692654 120 KeyTree.leaf) 2130820126079151348555972864813661152149602 132 (KeyTree.node KeyTree.leaf 2373933921498821156548946966077542516998897205349 406 KeyTree.leaf)) 2373933921498821156548946966091371382604691734629 404 (KeyTree.node (KeyTree.node KeyTree.leaf 2373933921498821156548946966096902918917062983795 410 KeyTree.leaf) 2373933921498821156548946966099668701968168452197 405 KeyTree.leaf)) 2373933921498821156548946966102434475089327358053 407 (KeyTree.node (KeyTree.node (KeyTree.node KeyTree.leaf 2373936052095199131855967692065435484523871666274 0 KeyTree.leaf) 2373955227504673449825753978114798291228325642338 148 KeyTree.leaf) 2373955227504673449825753978116181171582694064249 162 (KeyTree.node (KeyTree.node KeyTree.leaf 2373955227504673449825753978116181177788905095266 58 KeyTree.leaf) 2373955227504673449825753978117564058143281315950 61 KeyTree.leaf)))) 2373955227504673449825753978118946955875055108212 166 (KeyTree.node (KeyTree.node (KeyTree.node (KeyTree.node (KeyTree.node KeyTree.leaf 2373955227504673449825753978120329823816956903524 167 KeyTree.leaf) 2373955227504673449825753978123095591973131386992 168 (KeyTree.node KeyTree.leaf 2373955227504673449825753978123095604385587986533 76 KeyTree.leaf)) 2373955227504673449825753978128627138215442514036 79 (KeyTree.node (KeyTree.node KeyTree.leaf 2373955227504673449825753978130010019811053142123 169 KeyTree.leaf) 2373955227504673449825753978130010037188495278181 171 KeyTree.leaf)) 2373955227504673449825753978131392911336621473908 172 (KeyTree.node (KeyTree.node (KeyTree.node KeyTree.leaf 2373955227504673449825753978132775811550880792686 173 KeyTree.leaf) 2373955227504673449825753978136924457578917003375 177 KeyTree.leaf) 2373955227504673449825753978138307339174534316133 183 (KeyTree.node (KeyTree.node KeyTree.leaf 2373955227504673449825753978138307340415760924775 186 KeyTree.leaf) 2373955227504673449825753978138307344139507597412 194 KeyTree.leaf))) 2373955227504673449825753978138307344139508711532 195 (KeyTree.node (KeyTree.node (KeyTree.node (KeyTree.node KeyTree.leaf 2373955227504673449825753978138307362758176342114 86 KeyTree.leaf) 2373955227504673449825753978141073128431865299055 185 (KeyTree.node KeyTree.leaf 2373957358097226662638390409887811401314889302126 156 KeyTree.leaf)) 2373959488705078947743034872070438032467986612326 101 (KeyTree.node (KeyTree.node KeyTree.leaf 2373959488712728419520255752733213192939867799664 333 KeyTree.leaf) 2373965880498037679070958240416646878070949609586 104 KeyTree.leaf)) 2373965880498037703102004834526239756551116226664 105 (KeyTree.node (KeyTree.node (KeyTree.node KeyTree.leaf 2373965880498037703102004834526239762757343969384 108 KeyTree.leaf) 2373965880517161433181812775154024769902811086969 115 KeyTree.leaf) 2373965880530548085605347684759294580610513698926 144 (KeyTree.node (KeyTree.node KeyTree.leaf 2373965880530548085605347684759294581851749220454 119 KeyTree.leaf) 2644828269148894636365060402272123722615811966785159283 146 KeyTree.leaf))))) 2644828269148894636365060402279827180706269616365502565 408 (KeyTree.node (KeyTree.node (KeyTree.node (KeyTree.node (KeyTree.node (KeyTree.node KeyTree.leaf 2644828269148894636365060402301396847871193752812781669 409 KeyTree.leaf) 2644833016641751617759768406459938760743045314212331632 19 (KeyTree.node KeyTree.leaf 2644840137810727286029474231290459575559133925079318628 46 KeyTree.leaf)) 2644842511516674377655413387957842027590838925482197093 358 (KeyTree.node (KeyTree.node KeyTree.leaf 2644847258990355938101591465254322750436981172710670437 51 KeyTree.leaf) 2644847258990355938101591465254322764265857949718478951 138 KeyTree.leaf)) 2644852006425686746532270416066974818073931566151696482 56 (KeyTree.node (KeyTree.node (KeyTree.node KeyTree.leaf 2644852006425686746532270416066974833285665113842450546 57 KeyTree.leaf) 2644852006425686746532270416066974833285677526317989989 160 KeyTree.leaf) 2644852006425686746532270416070056217075017444610080882 165 (KeyTree.node (KeyTree.node KeyTree.leaf 2644852006425686746532270416082381742552147610134839397 355 KeyTree.leaf) 2644852006425686746532270416083922434446789641250472037 81 KeyTree.leaf))) 2644852006425686746532270416087003815470350232171511909 82 (KeyTree.node (KeyTree.node (KeyTree.node (KeyTree.node KeyTree.leaf 2644852006425686746532270416087003818236133283302604916 176 KeyTree.leaf) 2644852006425686746532270416090085186813712346510786676 83 (KeyTree.node KeyTree.leaf 2644852006425686746532270416091625869028183208467890297 189 KeyTree.leaf)) 2644852006425686746532270416091625871793967500828934260 196 (KeyTree.node (KeyTree.node KeyTree.leaf 2644852006425686746532270416091625873176835442730729572 197 KeyTree.leaf) 2644852006425686746532270416091625875942603598905213040 198 KeyTree.leaf)) 2644852006425686746532270416091625875942616011361812581 199 (KeyTree.node (KeyTree.node (KeyTree.node KeyTree.leaf 2644852006425686746532270416091625881474149841216340084 201 KeyTree.leaf) 2644852006425686746532270416091625882857048814269104229 203 KeyTree.leaf) 2644852006425686746532270416091625884239922962395299956 204 (KeyTree.node (KeyTree.node KeyTree.leaf 2644852006425686746532270416091625889771469204690829423 208 KeyTree.leaf) 2644852006425686746532270416091625891154350800308142181 212 KeyTree.leaf)))) 2644852006425686746532270416091625893920140057639125103 214 (KeyTree.node (KeyTree.node (KeyTree.node (KeyTree.node (KeyTree.node KeyTree.leaf 2644854380144417391565382416340929335941733950161289318 157 KeyTree.leaf) 2644861501362396877885053396756878115755926698298245234 297 (KeyTree.node KeyTree.leaf 2644863875074735758645055794552400851360402157314572386 361 KeyTree.leaf)) 2644863875074735758645055794552400862423495883204657268 117 (KeyTree.node (KeyTree.node KeyTree.leaf 2644863875076866351198268607179588464708221534058184813 147 KeyTree.leaf) 2644870996243711455600355880847020269656379059088851051 274 KeyTree.leaf)) 2644880491144201393068232125029131215902486299518304357 286 (KeyTree.node (KeyTree.node (KeyTree.node KeyTree.leaf 2946642846406307809523559301343923581096610087337584740925541 280 KeyTree.leaf) 2946648135609463780113408135997490178040969422356502747742315 284 KeyTree.leaf) 2946661358582934712552560857785209448513975747711517888675948 159 (KeyTree.node (KeyTree.node KeyTree.leaf 2946661358582934712552560857785209474705702001995013028053093 163 KeyTree.leaf) 2946661358582934712552560857810956981488653237329506860859493 182 KeyTree.leaf))) 2946661358582934712552560857812673483276104125639833651708020 193 (KeyTree.node (KeyTree.node (KeyTree.node (KeyTree.node KeyTree.leaf 2946661358582934712552560857812673500223708052547412188594292 207 KeyTree.leaf) 2946661358582934712552560857812673503305076630126475396776052 210 (KeyTree.node KeyTree.leaf 2946661358582934712552560857812673503305090459009458634555493 211 KeyTree.leaf)) 2946666647788464363522318009120508836958320405928013015220334 329 (KeyTree.node (KeyTree.node KeyTree.leaf 2946666647788464363522318009120508836958331469008085176418420 330 KeyTree.leaf) 2946666647802706765391662543508327783394164672208446983372911 356 KeyTree.leaf)) 2946674581563526760702441801217662424685419048989734926090360 109 (KeyTree.node (KeyTree.node (KeyTree.node KeyTree.leaf 2946674581587264005535560401380364411148082469831035256373356 116 KeyTree.leaf) 2946677226209018681004100408498681349649550256909773234569324 281 KeyTree.leaf) 2946679870769056460675951981761693220253837588666332453011557 125 (KeyTree.node (KeyTree.node KeyTree.leaf 2946682515367073857221823691156565477794546238775608049860727 133 KeyTree.leaf) 3282884262154519338330377810501860446991469377453008197294784184369 413 KeyTree.leaf))))))) 3282887208532905665172484615458835721641319956707296836123085832307 373 (KeyTree.node (KeyTree.node (KeyTree.node (KeyTree.node (KeyTree.node (KeyTree.node (KeyTree.node (KeyTree.node KeyTree.leaf 3282887208548773267519223148090767440239148854049025343080119074926 11 KeyTree.leaf) 3282887208548773267519223148090767440239148854054556889322425745509 12 (KeyTree.node KeyTree.leaf 3282887208548773267519223148090767440239148854060088423152280273012 14 KeyTree.leaf)) 3282890154884846026082963912884178913143948042041069816289600536690 308 (KeyTree.node (KeyTree.node KeyTree.leaf 3282890154884846040325318909033814622827414448463387513838132658277 22 KeyTree.leaf) 3282890154884846064062599962300402708834076864004416850930451873893 362 KeyTree.leaf)) 3282893101297612143767276104501593426974376885672600891726087979123 37 (KeyTree.node (KeyTree.node (KeyTree.node KeyTree.leaf 3282896047652197171533223112019066206831134617020226469483126128741 285 KeyTree.leaf) 3282898994046451105469501649753092802956050190906807668643276456055 278 KeyTree.leaf) 3282904886800579215731958180220571865742593102206717552931944398949 53 (KeyTree.node (KeyTree.node KeyTree.leaf 3282910779533550558471358682388795293133826032005651203884908937316 161 KeyTree.leaf) 3282910779533550558471358682407919028363130090880368454470949339237 170 KeyTree.leaf))) 3282910779533550558471358682411743797723513831489112205868252659827 174 (KeyTree.node (KeyTree.node (KeyTree.node (KeyTree.node KeyTree.leaf 3282910779533550558471358682417480904560266406566849734313217556584 179 KeyTree.leaf) 3282910779533550558471358682417480904560281813463670212939346018405 180 (KeyTree.node KeyTree.leaf 3282910779533550558471358682417480904560286435546268646310379913332 181 KeyTree.leaf)) 3282910779533550558471358682419393276366686397120525672945284350060 187 (KeyTree.node (KeyTree.node KeyTree.leaf 3282910779533550558471358682419393276366712588846779956440423727205 190 KeyTree.leaf) 3282910779533550558471358682419393307263746303842737143861398601828 184 KeyTree.leaf)) 3282910779533550558471394902588417329021609636415301207749983535220 89 (KeyTree.node (KeyTree.node (KeyTree.node KeyTree.leaf 3282916672290323240640265239748761152398657163940231447252449820779 411 KeyTree.leaf) 3282916672300901608972576761777268341361329833748138021326191853684 331 KeyTree.leaf) 3282922565081475716025066086036221625081912696532182807443309461619 298 (KeyTree.node (KeyTree.node KeyTree.leaf 3282925511414903926419718840038212334739629971214438345860690804856 113 KeyTree.leaf) 3282931404182255024395424454998662227877549999401285691205502435442 121 KeyTree.leaf)))) 3282931404208701021185446595856055776462673295872751879278544748659 127 (KeyTree.node (KeyTree.node (KeyTree.node (KeyTree.node (KeyTree.node KeyTree.leaf 3282934350550063001895010064804876919828407411775140957501372956786 128 KeyTree.leaf) 3282954975209345871757298286400446904309522963725906423913486680174 353 (KeyTree.node KeyTree.leaf 3657497468446622516100828348914718295130297995966758290237733216145703026 401 KeyTree.leaf)) 3657497468446622516100828348914718306604549432554371887658499550752342130 403 (KeyTree.node (KeyTree.node KeyTree.leaf 3657497468446622516100828348933893696955077245007132757471605124003856498 400 KeyTree.leaf) 3657497468446622516100828348933893708429328681594746354892371458610495602 402 KeyTree.leaf)) 3657504033652387918641588822102517347929903876513621636849798092591857767 145 (KeyTree.node (KeyTree.node (KeyTree.node KeyTree.leaf 3657504033664173442765361845556366936068958563248776781705294080957022318 5 KeyTree.leaf) 3657504033690690882622376739965701094379718608103837381897262535839055988 17 KeyTree.leaf) 3657504033690690882622376739965701094379718608106918771218132560276881516 18 (KeyTree.node (KeyTree.node KeyTree.leaf 3657510598890563552191765989006785430340685617476035962084626175023644773 152 KeyTree.leaf) 3657510598890563552191765989006785434165415498317124301069114957115949157 40 KeyTree.leaf))) 3657513881450723769504567080295557248649734195459601854508038947243098222 45 (KeyTree.node (KeyTree.node (KeyTree.node (KeyTree.node KeyTree.leaf 3657523729243166884751618824006063748127092448285293639798521535862276199 48 KeyTree.leaf) 3657523729243166884751618824006063750039467687716562572701982591630049383 49 (KeyTree.node KeyTree.leaf 3657523729243166884751618824006063751951842927147831505605443647397822567 50 KeyTree.leaf)) 3657530294407683079799642364381243309996817423077127644342760421152063603 175 (KeyTree.node (KeyTree.node KeyTree.leaf 3657530294407683079799642364387635081919465746292226869813002534185205860 188 KeyTree.leaf) 3657530294407683079799642364387635101043200975596285744530253120225607781 202 KeyTree.leaf)) 3657530294407683079799642364387635104867970335980026353274004517528928371 205 (KeyTree.node (KeyTree.node (KeyTree.node KeyTree.leaf 3657530294407683079799642364387635110605077172748008327832011588622286949 209 KeyTree.leaf) 3657530294407683079799642364387635112517479876212498706898942510674870372 213 KeyTree.leaf) 3657530294407683079799682717712586807270923555227435775793151784529231980 88 (KeyTree.node (KeyTree.node KeyTree.leaf 3657533576991414284534332425214878901171999924224069291035702932458766452 273 KeyTree.leaf) 3657546707423569852037986569130701782444282538219531921780182906320519278 118 KeyTree.leaf))))) 3657553272576300501805464815541497196942090990352262396827191980254756971 276 (KeyTree.node (KeyTree.node (KeyTree.node (KeyTree.node (KeyTree.node (KeyTree.node KeyTree.leaf 3657556555171817299423352918185656321893150590513989720685539303829602417 364 KeyTree.leaf) 3657556555171817299423355291912909411721895798256038483296540155283046513 365 (KeyTree.node KeyTree.leaf 3657556555171817299423357665640162501550641005998087245907541006736490609 366 KeyTree.leaf)) 3657556555171817299423360039367415591379386213740136008518541858189934705 367 (KeyTree.node (KeyTree.node KeyTree.leaf 3657563120395260964348539127929047278047782293769960436958265896344617061 137 KeyTree.leaf) 4074861819615242434463476588478023350211680116157000970633813815161057352679536 399 KeyTree.leaf)) 4074869133953659602666202816476495079877648088563351606630732807062720009338995 270 (KeyTree.node (KeyTree.node (KeyTree.node KeyTree.leaf 4074869133963507386270172326022714330191488645945766177327971595773192997240948 363 KeyTree.leaf) 4074869133973355175766877451590397042371061418249736462144816514808392739389559 277 KeyTree.leaf) 4074869133983203000620181394516667177661577057904916475314638966624424540831852 16 (KeyTree.node (KeyTree.node KeyTree.leaf 4074872791122868247168381031908004975646526001642471330556008797222017193672811 275 KeyTree.leaf) 4074876448318337617501804312012504931956294794764343050671525961301637197987941 151 KeyTree.leaf))) 4074876448318337617501804312012504931956298619494223891759864945790419290292325 28 (KeyTree.node (KeyTree.node (KeyTree.node (KeyTree.node KeyTree.leaf 4074876448351163540259472789544327778371530422758435293193769927949654662840421 150 KeyTree.leaf) 4074898391363132611401739153832283528823709378851787891244305720183737201918053 55 (KeyTree.node KeyTree.leaf 4074898391363132611401739153870263173395553186903530619065600286901718666641509 178 KeyTree.leaf)) 4074898391363132611401739153872636924085268194437360369628674159502903252156531 206 (KeyTree.node (KeyTree.node KeyTree.leaf 4074905705721245355651597741285606709353508792839436433721653130469376273875051 412 KeyTree.leaf) 4074913020122031850458651104288313031371678854539629642457677939733004924354675 334 KeyTree.leaf)) 4074916677245284157725903325581482265746852945896326640522385494899462534987887 338 (KeyTree.node (KeyTree.node (KeyTree.node KeyTree.leaf 4074923991616527316452961248387617798701232248176653063358079381806201495158900 215 KeyTree.leaf) 4074923991616527316452961248404233889472866786553155581092644949497954170765427 357 KeyTree.leaf) 4074923991616527322345733888719607912151266168632789740697383528716023421075559 122 (KeyTree.node (KeyTree.node KeyTree.leaf 4074923991616527322345733888719607912151268081008029171966316432177079188848743 123 KeyTree.leaf) 4074923991616527322345733888719607912151269993383268603235249335638134956621927 124 KeyTree.leaf)))) 4074927648795583715095274862523333957733881030401928931791678458143899752398958 368 (KeyTree.node (KeyTree.node (KeyTree.node (KeyTree.node (KeyTree.node KeyTree.leaf 4074927648795583715095274862542323741668996416311592574182726485933986298789998 369 KeyTree.leaf) 4074931305974640099005733569219053688410193951515372895471935447410627252060210 394 (KeyTree.node KeyTree.leaf 4074931305974640099005733569219053688410193951515372909338137607466653620437108 395 KeyTree.leaf)) 4074945934723691601600687878162734033967437965148678398689708410440952575230066 153 (KeyTree.node (KeyTree.node KeyTree.leaf 4539860600552750877889757360822337984055719921765237570790893512684067533419277779059 354 KeyTree.leaf) 4539860600567379607245648552270260886432620700064095863502579397842260301116078162035 4 KeyTree.leaf)) 4539860600578351167393045506813871165647962206513787199685000860340704128158258102387 8 (KeyTree.node (KeyTree.node (KeyTree.node KeyTree.leaf 4539860600600294261426951533807753102638894939111701407151595320529621496723058917491 10 KeyTree.leaf) 4539860600600294261426951533807753102638894939151861295762184015768667581111065116773 20 KeyTree.leaf) 4539864675085424076057974321617092510227151103764835984721747868157105772203982323813 24 (KeyTree.node (KeyTree.node KeyTree.leaf 4539868749588839759710170205664875894751697898177450547692713635666515890284733399141 30 KeyTree.leaf) 4539868749588839759710170205664875894751740510192979865843670535540580463636478427237 149 KeyTree.leaf))) 4539885047617131246653169708560913499351918474036994000277655620429825388296694268007 54 (KeyTree.node (KeyTree.node (KeyTree.node (KeyTree.node KeyTree.leaf 4539913569119098023532321605870236370055757829258448248960676562194629305868018974834 114 KeyTree.leaf) 4539921718147872488153294469891752195138624263176810278035414430883334074140391833714 126 (KeyTree.node KeyTree.leaf 4539925792647630999314303369774656499266964050945770752582075144507254085118510366820 129 KeyTree.leaf)) 4539925792647630999314303369774656499266964050968719238290238659833565440872441643109 130 (KeyTree.node (KeyTree.node KeyTree.leaf 4539925792654945363992226867606506068874970343223841277644940324220768252544257687667 131 KeyTree.leaf) 4539925792654945363992226867609150621791510729583242571250087227393305737588951089252 303 KeyTree.leaf)) 4539925792654945363992226867611795253041105863533300191156162759264640601632199802980 376 (KeyTree.node (KeyTree.node (KeyTree.node KeyTree.leaf 4539925792654945363992226867611795253041105863533300191156162759284001013480306573426 301 KeyTree.leaf) 4539925792654945363992226867619729047093301892964335603108012960854017894352490987620 302 KeyTree.leaf) 4539925792654945363992226867646175008277415237474298013056509660878072050373595693160 393 (KeyTree.node (KeyTree.node KeyTree.leaf 4539925792654945363992226867656753419336819445714188286202657271347177797866558652526 344 KeyTree.leaf) 4539925792709803033425146419815081445440765285292512666529655619238978122268150268005 348 KeyTree.leaf)))))) 4539929867172989724478921207952374762795593132197497268813088202973141683313256366194 352 (KeyTree.node (KeyTree.node (KeyTree.node (KeyTree.node (KeyTree.node (KeyTree.node (KeyTree.node KeyTree.leaf 4539929867198589958178076729566594017103233940160288098968962349794953215432104738917 135 KeyTree.leaf) 4539933941702005668091022015899755926309008089880409933565205037192688924462783987826 136 (KeyTree.node KeyTree.leaf 4539946165226881471381802063720919211194935895757528041235722852104642508835878404210 154 KeyTree.leaf)) 5057913173374504898729449416645329954588062337436815296321485163721160812891842689939669102 2 (KeyTree.node (KeyTree.node KeyTree.leaf 5057913173403026386067500222422000489735336258989335455271323466580291671146598071702519930 306 KeyTree.leaf) 5057913173403026386067500222422000489735336258989335455271323466580291690506997507359375476 307 KeyTree.leaf)) 5057917712864324931159101084579895857093370238903083684210026397598879502395780270023114853 23 (KeyTree.node (KeyTree.node (KeyTree.node KeyTree.leaf 5057917712864324931159156888683056402941053527956668396524649352088890329354288052655161458 378 KeyTree.leaf) 5057922252341921442370217148173706212853598901292553204237687000991944171166020360042971237 27 KeyTree.leaf) 5057922252382666472870022330750190971977914704904055019446039407053706404058901147046641765 323 (KeyTree.node (KeyTree.node KeyTree.leaf 5057940410170817290899514885352418906902653134033375252672091032704334735318234598823493746 300 KeyTree.leaf) 5057972186318416537193641888959300737757391797289609820944405486128492179470603298700132463 335 KeyTree.leaf))) 5057972186318416537193641888959300758914152199136180994531502872556324696162296844443058287 336 (KeyTree.node (KeyTree.node (KeyTree.node (KeyTree.node KeyTree.leaf 5057972186326565481853007908536845945766500698795321577694648929224498463119638854204522611 383 KeyTree.leaf) 5057985804698237405736009914657693891326128918969995653595836763147918794647535647598837861 384 (KeyTree.node KeyTree.leaf 5057985804706386460110695104383387693173756971701313734852680401953908341741986514182930548 339 KeyTree.leaf)) 5057985804706386489368107859955229811987336060733565365381653207977408740934838604808126574 271 (KeyTree.node (KeyTree.node KeyTree.leaf 5057985804706386489368107859967015314954367672050207932207754319051926622639073577445621864 377 KeyTree.leaf) 5057985804767504025974856503868683017363479232065447602753727555566145862909252469060468837 346 KeyTree.leaf)) 5635071646537017011137805140700521314534244266152006917192378141967549070330191653320295264223331 385 (KeyTree.node (KeyTree.node (KeyTree.node KeyTree.leaf 5635076703987165353569937548130473431096968695488282159857835275070744471758439698559726848639092 370 KeyTree.leaf) 5635081761505405546212711796766906660925133082666679132539773698428515677763516971648448270696549 13 KeyTree.leaf) 5635086818896540920286112102295084471680375499392059352133416920948519266729920792964018723946610 21 (KeyTree.node (KeyTree.node KeyTree.leaf 5635091876401162782001967367386104176214748779109727847328606969326756310724192957435287672455269 26 KeyTree.leaf) 5635091876401162782001967367386104176214777869680797991353856705846461197664575376599622221037669 313 KeyTree.leaf)))) 5635091876446557309422166318956756737654842452141419287972322402152885041557031368710785698365541 41 (KeyTree.node (KeyTree.node (KeyTree.node (KeyTree.node (KeyTree.node KeyTree.leaf 5635091876446557309422166318956756752386758185316825927243509159395800220210774698749879510106213 42 KeyTree.leaf) 5635091876446557309422166318956756781850526181239262465589618322300800477348797421275351617896549 324 (KeyTree.node KeyTree.leaf 5635091876446557309422166318956756787743304110786277213592869511736004306601441767669741178323045 327 KeyTree.leaf)) 5635096933883087304629398994737889567789525079298857684044158986236746965418520979424018143510629 47 (KeyTree.node (KeyTree.node KeyTree.leaf 5635112106256229593598640327949754133207128688464191769505008684628291760605911692636171123228786 299 KeyTree.leaf) 5635112106256229634343656199019015689340806634773957600647503447370104593037249700991947553177714 52 KeyTree.leaf)) 5635147508443583685085882752192224463544336844055636813719833894972254192983836773853337272320101 106 (KeyTree.node (KeyTree.node (KeyTree.node KeyTree.leaf 5635147508443583685085882752192224463544363290061921776832013484944421679668053981623489572831346 107 KeyTree.leaf) 5635147508443583685085882752192224478276252577231043452991020652215169371637580103892431084060773 110 KeyTree.leaf) 5635147508443583685085882752192224487115363934884008880179481728332307020504470061258232148459634 111 (KeyTree.node (KeyTree.node KeyTree.leaf 5635147508443583685085882752192224504793644831410412958040959150775324732403731795510702325760111 337 KeyTree.leaf) 5635162680853041664442881384034332427929981247807163009301156804500639420157409029166211632791667 392 KeyTree.leaf))) 5635162680853041664442881384034332427929983892360079549687516205794244567060581566651256326193252 360 (KeyTree.node (KeyTree.node (KeyTree.node (KeyTree.node KeyTree.leaf 5635162680853041664442881384034332427929994470785381340850897298826102492794042278808019866091620 359 KeyTree.leaf) 5635162680853041664442881384090136581179025778395988382690138130477102028204061975534387894747246 272 (KeyTree.node KeyTree.leaf 6278106576832548766396510261622738015266305987267841013683532573971967763962024478553423232490162487397 371 KeyTree.leaf)) 6278112211408563277764060232591038006135374096129841575084509051885772259756233390550657764611343974504 304 (KeyTree.node (KeyTree.node KeyTree.leaf 6278112211408563277764060232591038006135374096153642959614813740300203910284861908022398228322522955880 305 KeyTree.leaf) 6278112211443965578604541574071129627708429357462904308177310309312319254909353649893657032773030183026 9 KeyTree.leaf)) 6278123480601052269381775867613267295970972084529757643095970149520558859318567720135052284282267762789 29 (KeyTree.node (KeyTree.node (KeyTree.node KeyTree.leaf 6278123480601052269381775867613267295970986816445490818502609420707316102233746373878382323376079503461 31 KeyTree.leaf) 6278123480601052269381775867613267295970995655583294491995299321938243341352922908991345290418197889125 388 KeyTree.leaf) 6278123480601052269381775867613267295971016280205552951634455247356377733990643585726325720496105324645 32 (KeyTree.node (KeyTree.node KeyTree.leaf 6278123480601052269381775867613267295971016280213486740939147766816479007234003511901104848848187293797 316 KeyTree.leaf) 6278123480601052269381775867613267295971019226610385317993606569533366540910634084062518497398489350245 390 KeyTree.leaf))))) 6278123480601052269381775867613267295971022172991416287953895770067668442437832764545451243237747720293 319 (KeyTree.node (KeyTree.node (KeyTree.node (KeyTree.node (KeyTree.node (KeyTree.node KeyTree.leaf 6278123480651626857114948561945550178915133613582414951716891112111527197043474151820986694193742348389 321 KeyTree.leaf) 6278168557224341364448607211542931637810417167299478243701493651362172510437928491134163401267420004467 332 (KeyTree.node KeyTree.leaf 6278185460927097906558403004810383627484657230412318001508929081388598571102787051861218891644842999922 112 KeyTree.leaf)) 6278202364690543954855787464532915401523901320790423413864455861857864303848534719316517948351483281518 340 (KeyTree.node (KeyTree.node KeyTree.leaf 6278202364766405888659282172015876781278566321615177309266376458918193765298280560693398415732741832806 349 KeyTree.leaf) 6994520152150066890429977395883718904046064223722589327924187271286214793442495126777214490665979419641970803 15 KeyTree.leaf)) 6994532707219399545945469075418352453648828064061396889498963450693704876045265744101922934422104118049112165 311 (KeyTree.node (KeyTree.node (KeyTree.node KeyTree.leaf 6994532707219399545945469075418352453648837911803751564244197202713815801870164643092340160358774205336256613 387 KeyTree.leaf) 6994532707219399545945469075418352453648857607376852281192839029651349066250512503086813759243065607313424485 34 KeyTree.leaf) 6994532707275745301034049572246280811902985270746921248553196589959750384259523341580532830596305232618324069 322 (KeyTree.node (KeyTree.node KeyTree.leaf 6994532707275745301034049572246280837503232100269778031727469779309917987123468120179338043018324403453952101 382 KeyTree.leaf) 6994532707275745301034049572246280837503287904393563276526948090773581477277812313012947039250201815659315301 43 KeyTree.leaf))) 6994576650071938105408080405677667090792263606870771154965872915802853879008083136160256279470853770053419110 396 (KeyTree.node (KeyTree.node (KeyTree.node (KeyTree.node KeyTree.leaf 6994620593014629926621486524231508405158757049370141761992042896792365146240838136988225456138677789912268902 347 KeyTree.leaf) 7792671841727990544692797738232766512123761908248966909074360786827745947602945830759740141418678148078292466532467 397 (KeyTree.node KeyTree.leaf 7792692823505619666932398442552491488839584846205723871304002813436753103903526136154007786806011865539920304275577 310 KeyTree.leaf)) 7792692823505619666932398442552491488839614103595501262743231033966864189813138815717148911264582017894489822330981 312 (KeyTree.node (KeyTree.node KeyTree.leaf 7792692823505619666932398442552491488839636046682969986575764838877924406554915895724251982180267869753197761658981 389 KeyTree.leaf) 7792692823505619666932398442552491488839639703842330785600014208240053539980741679661927510069794439913660657959013 381 KeyTree.leaf)) 7792692823505619666932398442552491488839639703898134909385259007718365003644231834006120343678790671791072863322213 35 (KeyTree.node (KeyTree.node (KeyTree.node KeyTree.leaf 7792692823568395148825647037034448363091335782096075718153782825539211671904816809799502349039581635943592787968101 39 KeyTree.leaf) 7792692823568395148825647037034448436432466750922060569189838039400693306417475843705095048373095632701828649713765 325 KeyTree.leaf) 7792692823568395148825647037034448444581455296420343787861726897399873285997084999628410170683327812507377932173413 44 (KeyTree.node (KeyTree.node KeyTree.leaf 7792790738030552168054715083908947752339565691647808672456512047084808477008485268967581322513501322281875592577133 345 KeyTree.leaf) 8681917002966651328942712742254282430077044377383045261980697956294413638422788841358078956063443028475991329198638563438 3 KeyTree.leaf)))) 8681932586981492837924484288358449195352103419087197475182986342671842689768092037007077863950522487252825310018270068846 375 (KeyTree.node (KeyTree.node (KeyTree.node (KeyTree.node (KeyTree.node KeyTree.leaf 8681932586981492938365388293629041397614088297235708677905207731979397855063522727788302055976126701130605458661766856825 315 KeyTree.leaf) 8681932586981492938365388293629041397614096446260825950339408725674300028098974171379409659001317618095606030255484305509 33 (KeyTree.node KeyTree.leaf 8681932586981492938365388293629041397614108669793016062504029735453971163696982021586038777951261412905283223899198455909 317 KeyTree.leaf)) 8681932586981492938365388293629041397614116818781561560787248407342829162876961601195194701266383723137463029448480915557 36 (KeyTree.node (KeyTree.node KeyTree.leaf 8681932587051431856048439271724523348318765590247484537845544125617058384680705742752859665553693612381313011179743084645 320 KeyTree.leaf) 8681932587051431856048439271724523402792203383748426785566448068032563581102183505876354176180300056043023743324017393765 380 KeyTree.leaf)) 8681994922838035730709220880063057579177219746278708570265881555583484988152235852022727582513997552943539419042952708211 328 (KeyTree.node (KeyTree.node (KeyTree.node KeyTree.leaf 8682041674728694537055774731523505842726212394745490848119665191446083080418609394119621284671088137982371137488591913069 342 KeyTree.leaf) 8682041674840596802837612003317637454145963497204884908722344803267745282843051228625848118933105150973291015058157076595 350 KeyTree.leaf) 9672645278347125060548139482591638569578581746437630155634282560941382585401935715352160405869646775902021743758074379950620773 309 (KeyTree.node (KeyTree.node KeyTree.leaf 9672645278347125060548139482591638569578636219875423656576530281845325000907132136829923529364157402508465405468806524224929893 379 KeyTree.leaf) 9672645278425044848005838773899552141469711650763746911886692898152755455110085145137258867538779959920768476296336523357585509 38 KeyTree.leaf))) 9672645278425044848005838773899552232504100306716337536814591621947453461875758799710228461125917552784362121347181506141093989 326 (KeyTree.node (KeyTree.node (KeyTree.node (KeyTree.node KeyTree.leaf 9672766814315335328068283297720923648113613853140711800394295934923845449620510819606623911031019019304170294893547861801304173 343 KeyTree.leaf) 10776410176349872195457408775229135630030317694282202489895440271053566908270625440397134801489123738217015292380870548446141848223845 25 KeyTree.leaf) 10776410176349872195457408775229135630030408728670858442486065198952290702968632206070789374458717325354608155974515599291124631732325 318 (KeyTree.node (KeyTree.node KeyTree.leaf 10776410176349872195457408775229135630030423900989527277363726097860332586984871406969333689052452524317707126318579189786966994714725 391 KeyTree.leaf) 10776545581030486873024811241290012851057003496142962981683319109369933763354350890126224609176569619360915411587184637034293332410477 341 KeyTree.leaf)) 10776545581169385171386216559012525358971636629601293395242974199780627892082617678333671136066008456937880260910415045562671129821299 351 (KeyTree.node (KeyTree.node (KeyTree.node KeyTree.leaf 12006117118873135995268367744787492284998621958930147432120397479140332758598226379452694641076644104025384840569145037258012712241224155246 374 KeyTree.leaf) 12006235648784807100992466796050419789298234919486527266110482271988918669326066179344885942741397003203095635969206139400141453455727853683 398 KeyTree.leaf) 13376171160678540888914824940198127654388000668687516950175751239400554128807033860834182904221671090117599173841871638275990258722751691389927525 386 (KeyTree.node (KeyTree.node KeyTree.leaf 14902512679229913860324267665565966094299399730328663307881443670383306240780241872307350912144086252276450253679170389625660331602163684589914316472430 372 KeyTree.leaf) 14902552804165890546830673443774016397285566164322052883565047213932573323121958335230003491015435943294085176851076806430509938109238923767093321269369 314 KeyTree.leaf))))))))

/-- Model of `strnlen(s, maxlen)`: the number of bytes before the first NUL among
the first `maxlen` bytes. -/
def strnlenList (l : List Nat) (maxlen : Nat) : Nat :=
  ((l.take maxlen).takeWhile (fun b => b != 0)).length

/-- The string-capability resolution in `DrawLine` for string ordinal `di`
(row `FirstString + di`): the capability is present iff
`di < _info.h.nStrings && _info.astro[di] < _info.h.strtableSize`; when
present, the rendered bytes are those of the entry at offset `astro[di]`,
their count bounded by `strnlen(strings + off, strtableSize - off)`; when
absent, `s = ""` and `slen = 0`, so nothing is rendered. -/
def drawStringBytes (info : STerminfo) (di : Nat) : Option (List Nat) :=
  if di < info.h.nStrings ∧ info.astro.getD di 0 < info.h.strtableSize then
    some (((info.strings.drop (info.astro.getD di 0)).take
      (strnlenList (info.strings.drop (info.astro.getD di 0))
        (info.h.strtableSize - info.astro.getD di 0))))
  else none

/-- The modulus 2^32 of C `unsigned` arithmetic. -/
def W32 : Nat := 4294967296

/-- Unsigned 32-bit addition. -/
def add32 (a b : Nat) : Nat := (a + b) % W32

/-- Unsigned 32-bit subtraction (for operands below 2^32). -/
def sub32 (a b : Nat) : Nat := (a + (W32 - b % W32)) % W32

/-- Key code `KEY_ESCAPE` from the source; the other special key codes below are
ncurses key codes from `<curses.h>` (their exact values are irrelevant to
the viewport claim, which quantifies over all keys). -/
def KEY_ESCAPE : Nat := 27

def KEY_DOWN : Nat := 0o402

def KEY_UP : Nat := 0o403

def KEY_HOME : Nat := 0o406

def KEY_NPAGE : Nat := 0o522

def KEY_PPAGE : Nat := 0o523

def KEY_END : Nat := 0o550

/-- The UI state `OnKey` reads and writes: the globals `_topline`,
`_selection` and `_quitting`. -/
structure UIState where
  topline : Nat
  selection : Nat
  quitting : Bool

/-- Model of `const unsigned pageSize = LINES-1;` in 32-bit unsigned arithmetic. -/
def pageSizeOf (lines : Nat) : Nat := sub32 (lines % W32) 1

/-- The selection update of `OnKey`'s if/else chain (character keys by
ASCII code: q=113, 0=48, G=71, H=72, M=77, L=76, k=107, j=106, b=98,
space=32). -/
def selAfterKey (lines key : Nat) (st : UIState) : Nat :=
  if key = KEY_ESCAPE ∨ key = 113 then st.selection
  else if key = KEY_HOME ∨ key = 48 then 0
  else if key = KEY_END ∨ key = 71 then NValues - 1
  else if key = 72 then st.topline
  else if key = 77 then add32 st.topline (sub32 (pageSizeOf lines) 1 / 2)
  else if key = 76 then add32 st.topline (sub32 (pageSizeOf lines) 1)
  else if (key = KEY_UP ∨ key = 107) ∧ 0 < st.selection then st.selection - 1
  else if (key = KEY_DOWN ∨ key = 106) ∧ st.selection < NValues - 1 then
    add32 st.selection 1
  else if key = KEY_PPAGE ∨ key = 98 then
    if pageSizeOf lines < st.selection then sub32 st.selection (pageSizeOf lines)
    else 0
  else if key = KEY_NPAGE ∨ key = 32 then
    if add32 st.selection (pageSizeOf lines) < NValues - 1 then
      add32 st.selection (pageSizeOf lines)
    else NValues - 1
  else st.selection

/-- First clamp: `if (_topline > _selection) _topline = _selection;`. -/
def clampTop1 (sel top : Nat) : Nat := if sel < top then sel else top

/-- Both trailing clamps of `OnKey`:
`if (_topline + pageSize-1 < _selection) _topline = _selection - (pageSize-1);`. -/
def clampTopline (pageSize sel top : Nat) : Nat :=
  if sub32 (add32 (clampTop1 sel top) pageSize) 1 < sel then
    sub32 sel (sub32 pageSize 1)
  else clampTop1 sel top

/-- Model of `OnKey`: selection update per key, then the viewport clamps. -/
def onKey (lines key : Nat) (st : UIState) : UIState :=
  { topline := clampTopline (pageSizeOf lines) (selAfterKey lines key st) st.topline
    selection := selAfterKey lines key st
    quitting := st.quitting ∨ key = KEY_ESCAPE ∨ key = 113 }

/-! ## Theorems -/

theorem readBytes_ok (s : List Nat) (n : Nat) (h : n ≤ s.length) :
    readBytes s n = Except.ok (s.take n, s.drop n) := by
  simp [readBytes, h]

theorem readBytes_short (s : List Nat) (n : Nat) (h : s.length < n) :
    readBytes s n = Except.error TiError.ioError := by
  simp [readBytes]; omega

theorem decodeU16_length : ∀ l : List Nat, (decodeU16 l).length = l.length / 2
  | [] => rfl
  | [_] => by simp [decodeU16]
  | _ :: _ :: rest => by
    simp [decodeU16, decodeU16_length rest]
    omega

theorem decodeI16_length (l : List Nat) : (decodeI16 l).length = l.length / 2 := by
  simp [decodeI16, decodeU16_length]

theorem readBytes_error_iff (s : List Nat) (n : Nat) (e : TiError) :
    readBytes s n = Except.error e ↔ s.length < n ∧ e = TiError.ioError := by
  unfold readBytes
  split
  · simp only [reduceCtorEq, false_iff, not_and]
    omega
  · simp only [Except.error.injEq]
    constructor
    · intro he; exact ⟨by omega, he.symm⟩
    · intro he; exact he.2.symm

theorem readBytes_ok_iff (s : List Nat) (n : Nat) (p : List Nat × List Nat) :
    readBytes s n = Except.ok p ↔ n ≤ s.length ∧ p = (s.take n, s.drop n) := by
  unfold readBytes
  split
  · simp only [Except.ok.injEq]
    constructor
    · intro hp; exact ⟨by assumption, hp.symm⟩
    · intro hp; exact hp.2.symm
  · simp only [reduceCtorEq, false_iff, not_and]
    omega

/-- Master characterization of `loadTerminfo`: a short header read is an
`ioError`; a bad header (checked right after the header read) is a
`formatError`; a source too short for the declared sections is an
`ioError`; otherwise the load succeeds with `mkRecord`. -/
theorem loadTerminfo_eq (input : List Nat) :
    loadTerminfo input =
      if input.length < 12 then Except.error TiError.ioError
      else if badHeader (parseHeader (input.take 12)) then Except.error TiError.formatError
      else if input.length < 12 + sectionsLen (parseHeader (input.take 12)) then
        Except.error TiError.ioError
      else Except.ok (mkRecord input) := by
  unfold loadTerminfo
  split
  case _ e heq =>
    rw [readBytes_error_iff] at heq
    obtain ⟨hlt, he⟩ := heq
    subst he
    rw [if_pos hlt]
  case _ hdrBytes s1 heq =>
    rw [readBytes_ok_iff] at heq
    obtain ⟨h12, hp⟩ := heq
    obtain ⟨hb, hs1⟩ : hdrBytes = input.take 12 ∧ s1 = input.drop 12 := by
      have := hp
      simp only [Prod.mk.injEq] at this
      exact this
    subst hb; subst hs1
    rw [if_neg (by omega : ¬ input.length < 12)]
    simp only []
    split
    case _ hbad => rfl
    case _ hbad =>
      have hl1 : (input.drop 12).length = input.length - 12 := by simp
      split
      case _ e heq2 =>
        rw [readBytes_error_iff] at heq2
        obtain ⟨hlt, he⟩ := heq2
        subst he
        rw [if_pos (by unfold sectionsLen; omega)]
      case _ name s2 heq2 =>
        rw [readBytes_ok_iff] at heq2
        obtain ⟨hle2, hp2⟩ := heq2
        simp only [Prod.mk.injEq] at hp2
        obtain ⟨hn2, hs2⟩ := hp2
        subst hn2; subst hs2
        have hl2 : ((input.drop 12).drop (parseHeader (input.take 12)).nameSize).length
            = input.length - 12 - (parseHeader (input.take 12)).nameSize := by simp; omega
        split
        case _ e heq3 =>
          rw [readBytes_error_iff] at heq3
          obtain ⟨hlt, he⟩ := heq3
          subst he
          rw [if_pos (by unfold sectionsLen; omega)]
        case _ abool s3 heq3 =>
          rw [readBytes_ok_iff] at heq3
          obtain ⟨hle3, hp3⟩ := heq3
          simp only [Prod.mk.injEq] at hp3
          obtain ⟨hn3, hs3⟩ := hp3
          subst hn3; subst hs3
          have hl3 : (((input.drop 12).drop (parseHeader (input.take 12)).nameSize).drop
              (parseHeader (input.take 12)).nBooleans).length
              = input.length - 12 - (parseHeader (input.take 12)).nameSize
                - (parseHeader (input.take 12)).nBooleans := by simp; omega
          split
          case _ e heq4 =>
            rw [readBytes_error_iff] at heq4
            obtain ⟨hlt, he⟩ := heq4
            subst he
            rw [if_pos (by unfold sectionsLen; omega)]
          case _ anum s4 heq4 =>
            rw [readBytes_ok_iff] at heq4
            obtain ⟨hle4, hp4⟩ := heq4
            simp only [Prod.mk.injEq] at hp4
            obtain ⟨hn4, hs4⟩ := hp4
            subst hn4; subst hs4
            have hl4 : ((((input.drop 12).drop (parseHeader (input.take 12)).nameSize).drop
                (parseHeader (input.take 12)).nBooleans).drop
                (2 * (parseHeader (input.take 12)).nNumbers)).length
                = input.length - 12 - (parseHeader (input.take 12)).nameSize
                  - (parseHeader (input.take 12)).nBooleans
                  - 2 * (parseHeader (input.take 12)).nNumbers := by simp; omega
            split
            case _ e heq5 =>
              rw [readBytes_error_iff] at heq5
              obtain ⟨hlt, he⟩ := heq5
              subst he
              rw [if_pos (by unfold sectionsLen; omega)]
            case _ astro s5 heq5 =>
              rw [readBytes_ok_iff] at heq5
              obtain ⟨hle5, hp5⟩ := heq5
              simp only [Prod.mk.injEq] at hp5
              obtain ⟨hn5, hs5⟩ := hp5
              subst hn5; subst hs5
              have hl5 : (((((input.drop 12).drop (parseHeader (input.take 12)).nameSize).drop
                  (parseHeader (input.take 12)).nBooleans).drop
                  (2 * (parseHeader (input.take 12)).nNumbers)).drop
                  (2 * (parseHeader (input.take 12)).nStrings)).length
                  = input.length - 12 - (parseHeader (input.take 12)).nameSize
                    - (parseHeader (input.take 12)).nBooleans
                    - 2 * (parseHeader (input.take 12)).nNumbers
                    - 2 * (parseHeader (input.take 12)).nStrings := by simp; omega
              split
              case _ e heq6 =>
                rw [readBytes_error_iff] at heq6
                obtain ⟨hlt, he⟩ := heq6
                subst he
                rw [if_pos (by unfold sectionsLen; omega)]
              case _ strings s6 heq6 =>
                rw [readBytes_ok_iff] at heq6
                obtain ⟨hle6, hp6⟩ := heq6
                simp only [Prod.mk.injEq] at hp6
                obtain ⟨hn6, _⟩ := hp6
                subst hn6
                rw [if_neg (by unfold sectionsLen; omega)]
                unfold mkRecord
                rfl

/-- C1: every byte source whose header has the magic sentinel and in-range
counts, and which holds at least the declared bytes of all five sections,
loads successfully, and the record's five sections have exactly the
header's declared lengths (`nameBytes`, `boolCount`, `numCount`,
`strCount`, `stringTableBytes`). -/
theorem loadTerminfo_valid_ok (input : List Nat)
    (h12 : 12 ≤ input.length)
    (hmag : (parseHeader (input.take 12)).magic = TERMINFO_MAGIC)
    (hb : (parseHeader (input.take 12)).nBooleans ≤ NBooleans)
    (hn : (parseHeader (input.take 12)).nNumbers ≤ NNumbers)
    (hs : (parseHeader (input.take 12)).nStrings ≤ NStrings)
    (htot : 12 + sectionsLen (parseHeader (input.take 12)) ≤ input.length) :
    ∃ r, loadTerminfo input = Except.ok r ∧
      r.h = parseHeader (input.take 12) ∧
      r.name.length = (parseHeader (input.take 12)).nameSize ∧
      r.abool.length = (parseHeader (input.take 12)).nBooleans ∧
      r.anum.length = (parseHeader (input.take 12)).nNumbers ∧
      r.astro.length = (parseHeader (input.take 12)).nStrings ∧
      r.strings.length = (parseHeader (input.take 12)).strtableSize := by
  have hgood : ¬ badHeader (parseHeader (input.take 12)) := by
    unfold badHeader; push_neg
    exact ⟨hmag, hb, hn, hs⟩
  unfold sectionsLen at htot
  refine ⟨mkRecord input, ?_, ?_, ?_, ?_, ?_, ?_, ?_⟩
  · rw [loadTerminfo_eq, if_neg (by omega), if_neg hgood,
      if_neg (by unfold sectionsLen; omega)]
  · simp only [mkRecord]
  · simp only [mkRecord, List.length_take, List.length_drop]
    omega
  · simp only [mkRecord, List.length_take, List.length_drop]
    omega
  · simp only [mkRecord, decodeI16_length, List.length_take, List.length_drop]
    omega
  · simp only [mkRecord, decodeU16_length, List.length_take, List.length_drop]
    omega
  · simp only [mkRecord, List.length_take, List.length_drop]
    omega

theorem loadTerminfo_valid_ok_witness :
    ∃ r, loadTerminfo sampleInput = Except.ok r ∧
      r.h = parseHeader (sampleInput.take 12) ∧
      r.name.length = (parseHeader (sampleInput.take 12)).nameSize ∧
      r.abool.length = (parseHeader (sampleInput.take 12)).nBooleans ∧
      r.anum.length = (parseHeader (sampleInput.take 12)).nNumbers ∧
      r.astro.length = (parseHeader (sampleInput.take 12)).nStrings ∧
      r.strings.length = (parseHeader (sampleInput.take 12)).strtableSize :=
  loadTerminfo_valid_ok sampleInput (by decide) (by decide) (by decide)
    (by decide) (by decide) (by decide)

/-- C2: `loadTerminfo` fails with `formatError` exactly when the 12-byte
header is fully present but has a wrong magic or an over-maximum count;
moreover the verdict depends only on the first 12 bytes, i.e. the
validation happens before any further byte is read. -/
theorem loadTerminfo_formatError_iff (input : List Nat) :
    (loadTerminfo input = Except.error TiError.formatError ↔
      12 ≤ input.length ∧ badHeader (parseHeader (input.take 12))) ∧
    (∀ other : List Nat, input.take 12 = other.take 12 →
      12 ≤ input.length → 12 ≤ other.length →
      (loadTerminfo input = Except.error TiError.formatError ↔
        loadTerminfo other = Except.error TiError.formatError)) := by
  have key : ∀ l : List Nat, loadTerminfo l = Except.error TiError.formatError ↔
      12 ≤ l.length ∧ badHeader (parseHeader (l.take 12)) := by
    intro l
    rw [loadTerminfo_eq]
    by_cases h12 : l.length < 12
    · rw [if_pos h12]
      simp only [Except.error.injEq, reduceCtorEq, false_iff, not_and]
      omega
    · rw [if_neg h12]
      by_cases hbad : badHeader (parseHeader (l.take 12))
      · rw [if_pos hbad]
        simp only [true_iff]
        exact ⟨by omega, hbad⟩
      · rw [if_neg hbad]
        split
        · simp only [Except.error.injEq, reduceCtorEq, false_iff, not_and]
          intro _; exact hbad
        · simp only [reduceCtorEq, false_iff, not_and]
          intro _; exact hbad
  refine ⟨key input, ?_⟩
  intro other htake h1 h2
  rw [key input, key other, htake]
  constructor
  · intro hx; exact ⟨h2, hx.2⟩
  · intro hx; exact ⟨h1, hx.2⟩

theorem loadTerminfo_formatError_iff_witness :
    loadTerminfo badMagicInput = Except.error TiError.formatError :=
  (loadTerminfo_formatError_iff badMagicInput).1.mpr ⟨by decide, by decide⟩

/-- C3: a source that ends before a declared section is fully present
fails with `ioError` (and thus returns no record): this covers a short
header read, and, for a source whose header validates, a total length
short of the declared five sections. -/
theorem loadTerminfo_truncated_ioError (input : List Nat) :
    (input.length < 12 → loadTerminfo input = Except.error TiError.ioError) ∧
    (¬ badHeader (parseHeader (input.take 12)) →
      input.length < 12 + sectionsLen (parseHeader (input.take 12)) →
      loadTerminfo input = Except.error TiError.ioError) := by
  constructor
  · intro h
    rw [loadTerminfo_eq, if_pos h]
  · intro hgood hshort
    rw [loadTerminfo_eq]
    by_cases h12 : input.length < 12
    · rw [if_pos h12]
    · rw [if_neg h12, if_neg hgood, if_pos hshort]

theorem loadTerminfo_truncated_ioError_witness :
    loadTerminfo (sampleInput.take 15) = Except.error TiError.ioError :=
  (loadTerminfo_truncated_ioError (sampleInput.take 15)).2 (by decide) (by decide)

/-- C8: loading the same byte source twice is deterministic: any two
successful results agree field-wise on the header and all five sections. -/
theorem loadTerminfo_deterministic (input : List Nat) (r1 r2 : STerminfo)
    (h1 : loadTerminfo input = Except.ok r1)
    (h2 : loadTerminfo input = Except.ok r2) :
    r1.h = r2.h ∧ r1.name = r2.name ∧ r1.abool = r2.abool ∧
      r1.anum = r2.anum ∧ r1.astro = r2.astro ∧ r1.strings = r2.strings := by
  have hr : r1 = r2 := by
    have h12 := h1.symm.trans h2
    simpa using h12
  subst hr
  exact ⟨rfl, rfl, rfl, rfl, rfl, rfl⟩

theorem loadTerminfo_deterministic_witness :
    (mkRecord sampleInput).h = (mkRecord sampleInput).h ∧
      (mkRecord sampleInput).name = (mkRecord sampleInput).name ∧
      (mkRecord sampleInput).abool = (mkRecord sampleInput).abool ∧
      (mkRecord sampleInput).anum = (mkRecord sampleInput).anum ∧
      (mkRecord sampleInput).astro = (mkRecord sampleInput).astro ∧
      (mkRecord sampleInput).strings = (mkRecord sampleInput).strings :=
  loadTerminfo_deterministic sampleInput (mkRecord sampleInput) (mkRecord sampleInput)
    (by rw [loadTerminfo_eq, if_neg (by decide), if_neg (by decide), if_neg (by decide)])
    (by rw [loadTerminfo_eq, if_neg (by decide), if_neg (by decide), if_neg (by decide)])

theorem packedNames_cons (s : String) (rest : List String) :
    packedNames (s :: rest) = strBytes s ++ 0 :: packedNames rest := by
  simp [packedNames]

theorem packTable_eq (names : List String) :
    packTable names = 0 :: packedNames names := by
  induction names with
  | nil => rfl
  | cons s rest ih =>
    have ih2 : (rest.map (fun s => 0 :: strBytes s)).join ++ [0]
        = 0 :: packedNames rest := ih
    simp only [packTable, packedNames, List.map_cons, List.join_cons,
      List.cons_append, List.append_assoc] at *
    rw [ih2]
    simp

theorem dropWhile_ne_entry (bs l : List Nat) (h : ∀ b ∈ bs, b ≠ 0) :
    (bs ++ 0 :: l).dropWhile (fun b => b != 0) = 0 :: l := by
  induction bs with
  | nil => simp [List.dropWhile]
  | cons b bs ih =>
    have hb : b ≠ 0 := h b (by simp)
    simp only [List.cons_append, List.dropWhile_cons]
    simp only [bne_iff_ne, ne_eq, hb, not_false_eq_true, if_true]
    exact ih (fun x hx => h x (by simp [hx]))

theorem takeWhile_ne_entry (bs l : List Nat) (h : ∀ b ∈ bs, b ≠ 0) :
    (bs ++ 0 :: l).takeWhile (fun b => b != 0) = bs := by
  induction bs with
  | nil => simp [List.takeWhile]
  | cons b bs ih =>
    have hb : b ≠ 0 := h b (by simp)
    simp only [List.cons_append, List.takeWhile_cons]
    simp only [bne_iff_ne, ne_eq, hb, not_false_eq_true, if_true]
    rw [ih (fun x hx => h x (by simp [hx]))]

theorem scasbSkip_entry (bs l : List Nat) (h : ∀ b ∈ bs, b ≠ 0) :
    scasbSkip (bs ++ 0 :: l) = l := by
  unfold scasbSkip
  rw [dropWhile_ne_entry bs l h]

theorem scasbSkip_cons0 (l : List Nat) : scasbSkip (0 :: l) = l :=
  scasbSkip_entry [] l (by simp)

theorem strlenList_entry (bs l : List Nat) (h : ∀ b ∈ bs, b ≠ 0) :
    strlenList (bs ++ 0 :: l) = bs.length := by
  unfold strlenList
  rw [takeWhile_ne_entry bs l h]

theorem entryName_entry (bs l : List Nat) (h : ∀ b ∈ bs, b ≠ 0) :
    entryName (bs ++ 0 :: l) = bs := by
  unfold entryName
  exact takeWhile_ne_entry bs l h

theorem skipEntriesAsm_packed (names : List String) (h : namesNulFree names) :
    ∀ i, i ≤ names.length →
      skipEntriesAsm i (packedNames names) = packedNames (names.drop i) := by
  induction names with
  | nil =>
    intro i hi
    have hz : i = 0 := by simpa using hi
    subst hz
    rfl
  | cons s rest ih =>
    intro i hi
    cases i with
    | zero => rfl
    | succ n =>
      show skipEntriesAsm n (scasbSkip (packedNames (s :: rest))) = _
      rw [packedNames_cons, scasbSkip_entry _ _ (h s (by simp))]
      exact ih (fun x hx => h x (by simp [hx])) n (by simpa using hi)

theorem skipEntriesC_packed (names : List String) (h : namesNulFree names) :
    ∀ i, i ≤ names.length →
      skipEntriesC i (packedNames names) = packedNames (names.drop i) := by
  induction names with
  | nil =>
    intro i hi
    have hz : i = 0 := by simpa using hi
    subst hz
    rfl
  | cons s rest ih =>
    intro i hi
    cases i with
    | zero => rfl
    | succ n =>
      rw [packedNames_cons]
      show (if (strBytes s ++ 0 :: packedNames rest).isEmpty then _
        else skipEntriesC n ((strBytes s ++ 0 :: packedNames rest).drop
          (strlenList (strBytes s ++ 0 :: packedNames rest) + 1))) = _
      rw [if_neg (by simp)]
      rw [strlenList_entry _ _ (h s (by simp))]
      have hdrop : (strBytes s ++ 0 :: packedNames rest).drop ((strBytes s).length + 1)
          = packedNames rest := by
        have : strBytes s ++ 0 :: packedNames rest
            = (strBytes s ++ [0]) ++ packedNames rest := by simp
        rw [this]
        have hlen : (strBytes s ++ [0]).length = (strBytes s).length + 1 := by simp
        rw [← hlen, List.drop_left]
      rw [hdrop]
      exact ih (fun x hx => h x (by simp [hx])) n (by simpa using hi)

set_option maxHeartbeats 800000 in
theorem booleanTree_inv :
    booleanNames.map (fun s => booleanTree.find (strKey s))
      = List.range booleanNames.length := by decide

set_option maxHeartbeats 4000000 in
theorem stringTree_inv :
    stringNames.map (fun s => stringTree.find (strKey s))
      = List.range stringNames.length := by decide

set_option maxHeartbeats 800000 in
theorem booleanNames_nulFree : ∀ s ∈ booleanNames, ∀ b ∈ strBytes s, b ≠ 0 := by
  decide

set_option maxHeartbeats 800000 in
theorem numberNames_nulFree : ∀ s ∈ numberNames, ∀ b ∈ strBytes s, b ≠ 0 := by
  decide

set_option maxHeartbeats 4000000 in
theorem stringNames_nulFree : ∀ s ∈ stringNames, ∀ b ∈ strBytes s, b ≠ 0 := by
  decide

set_option maxHeartbeats 800000 in
theorem booleanNames_nonempty : ∀ s ∈ booleanNames, strBytes s ≠ [] := by
  decide

set_option maxHeartbeats 4000000 in
theorem stringNames_nonempty : ∀ s ∈ stringNames, strBytes s ≠ [] := by
  decide

theorem countFor_length (c : CapClass) : countFor c = (namesFor c).length := by
  cases c <;> decide

theorem namesFor_nulFree (c : CapClass) : namesNulFree (namesFor c) := by
  cases c
  case boolean => exact booleanNames_nulFree
  case number => exact numberNames_nulFree
  case string => exact stringNames_nulFree

theorem nameOf_def (c : CapClass) (i : Nat) :
    nameOf c i = entryName (GetStrtableEntry i (countFor c) (packTable (namesFor c))) := by
  cases c <;> rfl

theorem tableFor_eq (c : CapClass) : tableFor c = packTable (namesFor c) := by
  cases c <;> rfl

theorem GetStrtableEntry_packed (names : List String) (i : Nat)
    (h : namesNulFree names) :
    GetStrtableEntry i names.length (packTable names)
      = packedNames (names.drop (min i names.length)) := by
  unfold GetStrtableEntry
  rw [packTable_eq]
  show skipEntriesAsm (min i names.length) (scasbSkip (0 :: packedNames names)) = _
  rw [scasbSkip_cons0]
  exact skipEntriesAsm_packed names h _ (Nat.min_le_right _ _)

theorem strlenList_cons0 (l : List Nat) : strlenList (0 :: l) = 0 := by
  simp [strlenList]

theorem skipEntriesC_table (names : List String) (h : namesNulFree names)
    (i : Nat) (hi : i ≤ names.length) :
    skipEntriesC i (packTable names) =
      if i = 0 then packTable names
      else packedNames (names.drop (i - 1)) := by
  cases i with
  | zero => rfl
  | succ n =>
    rw [if_neg (by omega)]
    rw [packTable_eq]
    show (if (0 :: packedNames names).isEmpty then 0 :: packedNames names
      else skipEntriesC n ((0 :: packedNames names).drop
        (strlenList (0 :: packedNames names) + 1))) = _
    rw [if_neg (by simp), strlenList_cons0]
    show skipEntriesC n (packedNames names) = _
    rw [skipEntriesC_packed names h n (by omega)]
    simp

theorem packTable_ne_nil (names : List String) : packTable names ≠ [] := by
  rw [packTable_eq]
  simp

theorem packedNames_ne_nil (names : List String) (hne : names ≠ []) :
    packedNames names ≠ [] := by
  cases names with
  | nil => exact absurd rfl hne
  | cons s rest =>
    rw [packedNames_cons]
    simp

/-- The in-range lookup: `nameOf c i` is the `i`-th name of the class's
table, for `i < countFor c`. -/
theorem nameOf_getD (c : CapClass) (i : Nat) (hi : i < countFor c) :
    nameOf c i = strBytes ((namesFor c).getD i "") := by
  have hlen := countFor_length c
  have hnf := namesFor_nulFree c
  have hi2 : i < (namesFor c).length := by omega
  rw [nameOf_def, hlen, GetStrtableEntry_packed _ _ hnf,
    Nat.min_eq_left (Nat.le_of_lt hi2), List.drop_eq_getElem_cons hi2,
    packedNames_cons, entryName_entry _ _ (hnf _ (List.getElem_mem hi2)),
    List.getD_eq_getElem _ _ hi2]

/-- The out-of-range lookup on the x86 branch lands one past the end. -/
theorem nameOf_oob (c : CapClass) (i : Nat) (hi : countFor c ≤ i) :
    GetStrtableEntry i (countFor c) (tableFor c) = [] := by
  have hlen := countFor_length c
  have hnf := namesFor_nulFree c
  rw [tableFor_eq, hlen, GetStrtableEntry_packed _ _ hnf,
    Nat.min_eq_right (by omega), List.drop_length]
  rfl

theorem strBytes_inj_of_tree {names : List String} {t : KeyTree}
    (hmap : names.map (fun s => t.find (strKey s)) = List.range names.length)
    {i j : Nat} (hi : i < names.length) (hj : j < names.length)
    (hb : strBytes names[i] = strBytes names[j]) : i = j := by
  have hi2 : i < (names.map (fun s => t.find (strKey s))).length := by simpa using hi
  have hj2 : j < (names.map (fun s => t.find (strKey s))).length := by simpa using hj
  have hir : i < (List.range names.length).length := by simpa using hi
  have hjr : j < (List.range names.length).length := by simpa using hj
  have hmi : (names.map (fun s => t.find (strKey s))).getD i 0
      = (List.range names.length).getD i 0 := by rw [hmap]
  have hmj : (names.map (fun s => t.find (strKey s))).getD j 0
      = (List.range names.length).getD j 0 := by rw [hmap]
  rw [List.getD_eq_getElem _ _ hi2, List.getD_eq_getElem _ _ hir,
    List.getElem_map, List.getElem_range] at hmi
  rw [List.getD_eq_getElem _ _ hj2, List.getD_eq_getElem _ _ hjr,
    List.getElem_map, List.getElem_range] at hmj
  have hk : strKey names[i] = strKey names[j] := by
    unfold strKey
    rw [hb]
  rw [← hmi, ← hmj, hk]

theorem scasbSkip_isDrop (l : List Nat) :
    ∃ k, k ≤ l.length ∧ scasbSkip l = l.drop k := by
  induction l with
  | nil => exact ⟨0, by simp, rfl⟩
  | cons b rest ih =>
    by_cases hb : b = 0
    · subst hb
      exact ⟨1, by simp, scasbSkip_cons0 rest⟩
    · have hstep : scasbSkip (b :: rest) = scasbSkip rest := by
        unfold scasbSkip
        simp only [List.dropWhile_cons]
        rw [if_pos (by simpa [bne_iff_ne] using hb)]
      obtain ⟨k, hk, he⟩ := ih
      exact ⟨k + 1, by simp [Nat.succ_le_succ hk], by rw [hstep, he]; rfl⟩

theorem skipEntriesAsm_isDrop (n : Nat) (l : List Nat) :
    ∃ k, k ≤ l.length ∧ skipEntriesAsm n l = l.drop k := by
  induction n generalizing l with
  | zero => exact ⟨0, by simp, rfl⟩
  | succ m ih =>
    obtain ⟨k1, hk1, he1⟩ := scasbSkip_isDrop l
    obtain ⟨k2, hk2, he2⟩ := ih (scasbSkip l)
    refine ⟨k2 + k1, ?_, ?_⟩
    · rw [he1] at hk2
      simp only [List.length_drop] at hk2
      omega
    · show skipEntriesAsm m (scasbSkip l) = _
      rw [he2, he1, List.drop_drop, Nat.add_comm]

theorem skipEntriesC_isDrop (n : Nat) (l : List Nat) :
    ∃ k, k ≤ l.length ∧ skipEntriesC n l = l.drop k := by
  induction n generalizing l with
  | zero => exact ⟨0, by simp, rfl⟩
  | succ m ih =>
    by_cases hl : l.isEmpty
    · refine ⟨0, by simp, ?_⟩
      show (if l.isEmpty then l else _) = l.drop 0
      rw [if_pos hl]
      simp
    · obtain ⟨k2, hk2, he2⟩ := ih (l.drop (strlenList l + 1))
      simp only [List.length_drop] at hk2
      by_cases hs : strlenList l + 1 ≤ l.length
      · refine ⟨k2 + (strlenList l + 1), by omega, ?_⟩
        show (if l.isEmpty then l else skipEntriesC m (l.drop (strlenList l + 1))) = _
        rw [if_neg hl, he2, List.drop_drop, Nat.add_comm]
      · refine ⟨l.length, Nat.le_refl _, ?_⟩
        show (if l.isEmpty then l else skipEntriesC m (l.drop (strlenList l + 1))) = _
        rw [if_neg hl, he2]
        have h1 : l.drop (strlenList l + 1) = [] := List.drop_eq_nil_of_le (by omega)
        have h2 : l.drop l.length = [] := List.drop_eq_nil_of_le (Nat.le_refl _)
        rw [h1, h2]
        simp

theorem nameOf_inj (c : CapClass) (t : KeyTree)
    (hmap : (namesFor c).map (fun s => t.find (strKey s))
      = List.range (namesFor c).length)
    (i j : Nat) (hi : i < countFor c) (hj : j < countFor c) (hne : i ≠ j) :
    nameOf c i ≠ nameOf c j := by
  have hlen := countFor_length c
  have hi2 : i < (namesFor c).length := by omega
  have hj2 : j < (namesFor c).length := by omega
  rw [nameOf_getD c i hi, nameOf_getD c j hj,
    List.getD_eq_getElem _ _ hi2, List.getD_eq_getElem _ _ hj2]
  intro heq
  exact hne (strBytes_inj_of_tree hmap hi2 hj2 heq)

/-- C4 counterexample: at class boolean, ordinal 44 (= the class count,
the smallest out-of-range ordinal), the x86 branch of `GetStrtableEntry`
crosses `min(44,44)+1 = 45` NULs — every NUL of `c_BooleanNames` — and
returns the one-past-the-end position (modelled as the empty suffix of the
nonempty static table), so the NUL-terminated string subsequently read
from the returned pointer does not lie within the static table. -/
theorem getStrtableEntry_oob_counterexample :
    GetStrtableEntry 44 NBooleans c_BooleanNames = [] ∧ c_BooleanNames ≠ [] :=
  ⟨nameOf_oob CapClass.boolean 44 (by decide), packTable_ne_nil booleanNames⟩

/-- C4 amended: the lookup never fails, and on either branch the walk
inspects only table bytes — the returned pointer is a suffix of the static
table, i.e. a position inside it or one past its end. On the portable
`#else` branch the returned pointer always lies strictly inside the table
(so the returned string does too); on the x86 branch, for every ordinal
`≥` the class count, the clamped walk returns exactly the one-past-the-end
position, so the string read there is not within the table. -/
theorem getStrtableEntry_bounds (c : CapClass) (i : Nat) :
    (∃ k, k ≤ (tableFor c).length ∧
      GetStrtableEntry i (countFor c) (tableFor c) = (tableFor c).drop k) ∧
    (∃ k, k ≤ (tableFor c).length ∧
      GetStrtableEntryPortable i (countFor c) (tableFor c) = (tableFor c).drop k) ∧
    GetStrtableEntryPortable i (countFor c) (tableFor c) ≠ [] ∧
    (countFor c ≤ i → GetStrtableEntry i (countFor c) (tableFor c) = []) := by
  refine ⟨skipEntriesAsm_isDrop (min i (countFor c) + 1) (tableFor c),
    skipEntriesC_isDrop (min i (countFor c)) (tableFor c), ?_, nameOf_oob c i⟩
  have hlen := countFor_length c
  have hnf := namesFor_nulFree c
  show skipEntriesC (min i (countFor c)) (tableFor c) ≠ []
  rw [tableFor_eq, hlen, skipEntriesC_table _ hnf _ (Nat.min_le_right _ _)]
  by_cases hz : min i (namesFor c).length = 0
  · rw [if_pos hz]
    exact packTable_ne_nil _
  · rw [if_neg hz]
    apply packedNames_ne_nil
    have hmin := Nat.min_le_right i (namesFor c).length
    intro hd
    have hdl := congrArg List.length hd
    simp only [List.length_drop, List.length_nil] at hdl
    omega

theorem getStrtableEntry_bounds_witness :
    GetStrtableEntryPortable 44 (countFor CapClass.boolean)
      (tableFor CapClass.boolean) ≠ [] :=
  (getStrtableEntry_bounds CapClass.boolean 44).2.2.1

/-- C5: for every class and every in-range ordinal `i`, the name the
catalog returns is the string reached by walking the class's packed buffer
of concatenated NUL-terminated names from its start and skipping exactly
`i` NUL-terminated entries — equivalently, the `i`-th name of the class's
name list. -/
theorem nameOf_walks_packed (c : CapClass) (i : Nat) (hi : i < countFor c) :
    nameOf c i = entryName (skipEntriesAsm i (packedNames (namesFor c))) ∧
    nameOf c i = strBytes ((namesFor c).getD i "") := by
  have hlen := countFor_length c
  have hnf := namesFor_nulFree c
  have hi2 : i < (namesFor c).length := by omega
  constructor
  · rw [nameOf_getD c i hi, skipEntriesAsm_packed _ hnf i (Nat.le_of_lt hi2),
      List.drop_eq_getElem_cons hi2, packedNames_cons,
      entryName_entry _ _ (hnf _ (List.getElem_mem hi2)),
      List.getD_eq_getElem _ _ hi2]
  · exact nameOf_getD c i hi

theorem nameOf_walks_packed_witness :
    nameOf CapClass.boolean 1
        = entryName (skipEntriesAsm 1 (packedNames (namesFor CapClass.boolean))) ∧
      nameOf CapClass.boolean 1 = strBytes ((namesFor CapClass.boolean).getD 1 "") :=
  nameOf_walks_packed CapClass.boolean 1 (by decide)

/-- C6: `nameOf(boolean, i)` for `i < 44` is nonempty, the 44 names are
pairwise distinct, ordinal 0 is "auto_left_margin" and ordinal 1 is
"auto_right_margin"; `nameOf(string, i)` for `i < 414` is nonempty and
pairwise distinct with ordinal 0 "back_tab". -/
theorem catalogNames_spec :
    (∀ i, i < NBooleans → nameOf CapClass.boolean i ≠ []) ∧
    (∀ i j, i < NBooleans → j < NBooleans → i ≠ j →
      nameOf CapClass.boolean i ≠ nameOf CapClass.boolean j) ∧
    nameOf CapClass.boolean 0 = strBytes "auto_left_margin" ∧
    nameOf CapClass.boolean 1 = strBytes "auto_right_margin" ∧
    (∀ i, i < NStrings → nameOf CapClass.string i ≠ []) ∧
    (∀ i j, i < NStrings → j < NStrings → i ≠ j →
      nameOf CapClass.string i ≠ nameOf CapClass.string j) ∧
    nameOf CapClass.string 0 = strBytes "back_tab" := by
  refine ⟨?_, ?_, ?_, ?_, ?_, ?_, ?_⟩
  · intro i hi
    have hi2 : i < (namesFor CapClass.boolean).length := hi
    rw [nameOf_getD CapClass.boolean i hi, List.getD_eq_getElem _ _ hi2]
    exact booleanNames_nonempty _ (List.getElem_mem hi2)
  · intro i j hi hj hne
    exact nameOf_inj CapClass.boolean booleanTree booleanTree_inv i j hi hj hne
  · rw [nameOf_getD _ _ (by decide)]
    decide
  · rw [nameOf_getD _ _ (by decide)]
    decide
  · intro i hi
    have hi2 : i < (namesFor CapClass.string).length := hi
    rw [nameOf_getD CapClass.string i hi, List.getD_eq_getElem _ _ hi2]
    exact stringNames_nonempty _ (List.getElem_mem hi2)
  · intro i j hi hj hne
    exact nameOf_inj CapClass.string stringTree stringTree_inv i j hi hj hne
  · rw [nameOf_getD _ _ (by decide)]
    decide

theorem catalogNames_spec_witness :
    nameOf CapClass.boolean 2 ≠ [] :=
  catalogNames_spec.1 2 (by decide)

theorem headD_drop_getD (l : List Nat) (n : Nat) :
    (l.drop n).headD 0 = l.getD n 0 := by
  induction l generalizing n with
  | nil => simp
  | cons x xs ih =>
    cases n with
    | zero => rfl
    | succ m => exact ih m

theorem takeWhile_length_le (p : Nat → Bool) :
    ∀ l : List Nat, (l.takeWhile p).length ≤ l.length
  | [] => by simp
  | x :: xs => by
    simp only [List.takeWhile_cons]
    split
    · simpa using takeWhile_length_le p xs
    · simp

theorem strnlenList_le (l : List Nat) (m : Nat) : strnlenList l m ≤ m := by
  unfold strnlenList
  calc ((l.take m).takeWhile (fun b => b != 0)).length
      ≤ (l.take m).length := takeWhile_length_le _ (l.take m)
    _ ≤ m := by
        rw [List.length_take]
        omega

/-- C7: a string offset pointing at the last byte of the string table with
a NUL there resolves to the empty string (present, zero rendered bytes,
not an error); more generally an offset strictly below `strtableSize` is
treated as present and resolved, while an offset at or above
`strtableSize` is treated as capability absent. -/
theorem drawString_boundary (info : STerminfo) (di : Nat)
    (hdi : di < info.h.nStrings) :
    (info.astro.getD di 0 + 1 = info.h.strtableSize →
      info.strings.getD (info.astro.getD di 0) 0 = 0 →
      drawStringBytes info di = some []) ∧
    (info.astro.getD di 0 < info.h.strtableSize →
      ∃ bs, drawStringBytes info di = some bs) ∧
    (info.h.strtableSize ≤ info.astro.getD di 0 →
      drawStringBytes info di = none) := by
  refine ⟨?_, ?_, ?_⟩
  · intro hsz hnul
    unfold drawStringBytes
    rw [if_pos ⟨hdi, by omega⟩]
    have hone : info.h.strtableSize - info.astro.getD di 0 = 1 := by omega
    have hzero : strnlenList (info.strings.drop (info.astro.getD di 0)) 1 = 0 := by
      unfold strnlenList
      cases hlist : info.strings.drop (info.astro.getD di 0) with
      | nil => simp
      | cons b rest =>
        have hb : b = 0 := by
          have hh := headD_drop_getD info.strings (info.astro.getD di 0)
          rw [hlist, hnul] at hh
          exact hh
        subst hb
        simp [List.takeWhile]
    rw [hone, hzero]
    simp
  · intro hlt
    exact ⟨_, by unfold drawStringBytes; rw [if_pos ⟨hdi, hlt⟩]⟩
  · intro hge
    unfold drawStringBytes
    rw [if_neg (by omega)]

theorem drawString_boundary_witness :
    drawStringBytes
      { h := { magic := 282, nameSize := 0, nBooleans := 0, nNumbers := 0,
               nStrings := 1, strtableSize := 2 },
        name := [], abool := [], anum := [], astro := [1], strings := [97, 0] }
      0 = some [] :=
  (drawString_boundary _ 0 (by decide)).1 (by decide) (by decide)

/-- C10: rendering a present string capability reads at most
`strnlen(stringTable + off, stringTableBytes - off)` bytes: the `strnlen`
bound never exceeds `strtableSize - off`, and `off` plus the number of
rendered bytes never exceeds `strtableSize`, so no byte at index
`≥ strtableSize` is read even when the entry has no NUL before the table
end. -/
theorem drawString_reads_bounded (info : STerminfo) (di : Nat) (bs : List Nat)
    (hs : drawStringBytes info di = some bs) :
    strnlenList (info.strings.drop (info.astro.getD di 0))
        (info.h.strtableSize - info.astro.getD di 0)
      ≤ info.h.strtableSize - info.astro.getD di 0 ∧
    info.astro.getD di 0 + bs.length ≤ info.h.strtableSize := by
  unfold drawStringBytes at hs
  split at hs
  case isTrue hcond =>
    have hbs : bs = (info.strings.drop (info.astro.getD di 0)).take
        (strnlenList (info.strings.drop (info.astro.getD di 0))
          (info.h.strtableSize - info.astro.getD di 0)) := by
      have := hs
      simp only [Option.some.injEq] at this
      exact this.symm
    have hb1 := strnlenList_le (info.strings.drop (info.astro.getD di 0))
      (info.h.strtableSize - info.astro.getD di 0)
    constructor
    · exact hb1
    · have hlen : bs.length ≤ strnlenList (info.strings.drop (info.astro.getD di 0))
          (info.h.strtableSize - info.astro.getD di 0) := by
        rw [hbs]
        simp [List.length_take]
      omega
  case isFalse => exact absurd hs (by simp)

theorem drawString_reads_bounded_witness :
    strnlenList ((mkRecord sampleInput).strings.drop
        ((mkRecord sampleInput).astro.getD 0 0))
        ((mkRecord sampleInput).h.strtableSize - (mkRecord sampleInput).astro.getD 0 0)
      ≤ (mkRecord sampleInput).h.strtableSize - (mkRecord sampleInput).astro.getD 0 0 ∧
    (mkRecord sampleInput).astro.getD 0 0 + ([97] : List Nat).length
      ≤ (mkRecord sampleInput).h.strtableSize :=
  drawString_reads_bounded (mkRecord sampleInput) 0 [97] (by decide)

theorem selAfterKey_lt (lines key : Nat) (st : UIState)
    (ht : st.topline < W32) (hs : st.selection < W32) :
    selAfterKey lines key st < W32 := by
  have hW : (0:Nat) < W32 := by unfold W32; omega
  have hadd : ∀ a b, add32 a b < W32 := fun a b => by
    unfold add32
    exact Nat.mod_lt _ hW
  have hsub : ∀ a b, sub32 a b < W32 := fun a b => by
    unfold sub32
    exact Nat.mod_lt _ hW
  have hNV : NValues - 1 < W32 := by
    unfold NValues FirstString FirstNumber FirstBoolean NBooleans NNumbers
      NStrings W32
    omega
  unfold selAfterKey
  by_cases h1 : key = KEY_ESCAPE ∨ key = 113
  · rw [if_pos h1]; exact hs
  rw [if_neg h1]
  by_cases h2 : key = KEY_HOME ∨ key = 48
  · rw [if_pos h2]; exact hW
  rw [if_neg h2]
  by_cases h3 : key = KEY_END ∨ key = 71
  · rw [if_pos h3]; exact hNV
  rw [if_neg h3]
  by_cases h4 : key = 72
  · rw [if_pos h4]; exact ht
  rw [if_neg h4]
  by_cases h5 : key = 77
  · rw [if_pos h5]; exact hadd _ _
  rw [if_neg h5]
  by_cases h6 : key = 76
  · rw [if_pos h6]; exact hadd _ _
  rw [if_neg h6]
  by_cases h7 : (key = KEY_UP ∨ key = 107) ∧ 0 < st.selection
  · rw [if_pos h7]; omega
  rw [if_neg h7]
  by_cases h8 : (key = KEY_DOWN ∨ key = 106) ∧ st.selection < NValues - 1
  · rw [if_pos h8]; exact hadd _ _
  rw [if_neg h8]
  by_cases h9 : key = KEY_PPAGE ∨ key = 98
  · rw [if_pos h9]
    split
    · exact hsub _ _
    · exact hW
  rw [if_neg h9]
  by_cases h10 : key = KEY_NPAGE ∨ key = 32
  · rw [if_pos h10]
    split
    · exact hadd _ _
    · exact hNV
  rw [if_neg h10]
  exact hs

theorem pageSizeOf_eq (lines : Nat) (h1 : 1 ≤ lines) (h2 : lines ≤ 2 ^ 31) :
    pageSizeOf lines = lines - 1 := by
  unfold pageSizeOf sub32 W32
  omega

theorem clampTopline_invariant (pageSize sel top : Nat)
    (hp1 : 1 ≤ pageSize) (hp2 : pageSize ≤ 2 ^ 31)
    (htop : top < W32) (hsel : sel < W32) :
    clampTopline pageSize sel top ≤ sel ∧
      sel ≤ clampTopline pageSize sel top + (pageSize - 1) := by
  unfold clampTopline clampTop1 add32 sub32 W32 at *
  split_ifs <;> omega

/-- C9: after any `OnKey` invocation, from any 32-bit state and for any
key code, the viewport invariant holds: `_topline ≤ _selection` and
`_selection ≤ _topline + pageSize - 1` where `pageSize = LINES - 1` (for
a terminal of at least 2 and at most 2^31 lines, so that the unsigned
`pageSize` computation does not wrap). -/
theorem onKey_viewport (lines key : Nat) (st : UIState)
    (hl2 : 2 ≤ lines) (hl31 : lines ≤ 2 ^ 31)
    (ht : st.topline < W32) (hs : st.selection < W32) :
    (onKey lines key st).topline ≤ (onKey lines key st).selection ∧
      (onKey lines key st).selection ≤
        (onKey lines key st).topline + (lines - 1) - 1 := by
  have hsel := selAfterKey_lt lines key st ht hs
  have hpage := pageSizeOf_eq lines (by omega) hl31
  have hcl := clampTopline_invariant (pageSizeOf lines) (selAfterKey lines key st)
    st.topline (by omega) (by omega) ht hsel
  show clampTopline (pageSizeOf lines) (selAfterKey lines key st) st.topline
      ≤ selAfterKey lines key st ∧
    selAfterKey lines key st ≤
      clampTopline (pageSizeOf lines) (selAfterKey lines key st) st.topline
        + (lines - 1) - 1
  rw [hpage]
  rw [hpage] at hcl
  omega

theorem onKey_viewport_witness :
    (onKey 25 106 (UIState.mk 0 0 false)).topline
        ≤ (onKey 25 106 (UIState.mk 0 0 false)).selection ∧
      (onKey 25 106 (UIState.mk 0 0 false)).selection ≤
        (onKey 25 106 (UIState.mk 0 0 false)).topline + (25 - 1) - 1 :=
  onKey_viewport 25 106 (UIState.mk 0 0 false) (by decide) (by decide)
    (by decide) (by decide)

/-- The portable `#else` branch of `GetStrtableEntry` crosses one NUL
fewer than the x86 branch: on the real tables (with their leading NUL from
the `_()` macro) it returns the empty leading entry for ordinal 0 and the
previous name for positive ordinals. -/
theorem getStrtableEntryPortable_offByOne :
    entryName (GetStrtableEntryPortable 0 NBooleans c_BooleanNames) = [] ∧
    entryName (GetStrtableEntryPortable 1 NBooleans c_BooleanNames)
      = strBytes "auto_left_margin" ∧
    entryName (GetStrtableEntry 0 NBooleans c_BooleanNames)
      = strBytes "auto_left_margin" := by
  refine ⟨by decide, by decide, by decide⟩

end Tiedit
